import Mathlib

set_option maxRecDepth 8192

/-!
Shallow embedding of `pkg/cluster/sync.go` of the postgres-operator repository.

The file translates every function of `sync.go` into a pure Lean function.
External collaborators (the Kubernetes resource stores, the desired-state
generators, the comparators, the database driver, the Patroni channel) are not
part of `sync.go`; following the specification they are modelled as fields of
an `Env` structure supplying the outcome of each call.  Every reconciler
additionally returns the list of calls it issued (`Event` trace), so that
claims about which calls happen, and in which order, can be stated.

Go errors are modelled as a classification (`NotFound` / `AlreadyExists` /
`Other`) together with a message.  Modelled from the spec: wrapping an error
with step context (Go `fmt.Errorf`) keeps its classification, and the
`k8sutil.ResourceNotFound` / `k8sutil.ResourceAlreadyExists` helpers test
exactly that classification (the helpers are not under `src/`; the spec states
that the orchestrator tolerates an AlreadyExists-classified error surfacing
from the statefulset step, which requires classification to survive the wrap).
-/

namespace ZOp

inductive ErrClass
  | notFound
  | alreadyExists
  | other
deriving DecidableEq

structure GErr where
  cls : ErrClass
  msg : String
deriving DecidableEq

/-- Modelled from the spec: `fmt.Errorf("context: %v", err)` keeps the error
classification while prefixing the message. -/
def wrapErr (pre : String) (e : GErr) : GErr := { cls := e.cls, msg := pre ++ e.msg }

/-- Modelled from the spec: `k8sutil.ResourceNotFound`. -/
def resourceNotFound (e : GErr) : Bool :=
  match e.cls with
  | .notFound => true
  | _ => false

/-- Modelled from the spec: `k8sutil.ResourceAlreadyExists`. -/
def resourceAlreadyExists (e : GErr) : Bool :=
  match e.cls with
  | .alreadyExists => true
  | _ => false

inductive Role
  | master
  | replica
deriving DecidableEq

def roleName : Role → String
  | .master => "master"
  | .replica => "replica"

/-- Per-role resource references (`c.Services`, `c.Endpoints` are maps keyed by
the role enum). -/
structure RoleMap (α : Type) where
  forMaster : Option α
  forReplica : Option α
deriving DecidableEq

def RoleMap.get (m : RoleMap α) : Role → Option α
  | .master => m.forMaster
  | .replica => m.forReplica

def RoleMap.set (m : RoleMap α) : Role → Option α → RoleMap α
  | .master, v => { m with forMaster := v }
  | .replica, v => { m with forReplica := v }

structure ConnPoolSpec where
  schema : String
  user : String
deriving DecidableEq

/-- The fields of the Postgresql manifest spec that `sync.go` reads. -/
structure PgSpec where
  enableLogicalBackup : Bool
  standbyCluster : Bool
  databases : List (String × String)
  parameters : List (String × String)
  pgVersion : String
  connectionPool : Option ConnPoolSpec
  volumeSize : Nat
deriving DecidableEq

structure Container where
  name : String
  image : String
deriving DecidableEq

structure StatefulSet where
  containers : List Container
  rollingUpdateFlag : Bool
  rep : Nat
deriving DecidableEq

/-- Result of `compareStatefulSetWith`: match flag, rolling-update needed,
replace (delete-and-recreate) needed, human-readable reasons. -/
structure SsCompare where
  matched : Bool
  rollingUpdate : Bool
  replace : Bool
  reasons : List String
deriving DecidableEq

structure Pod where
  name : String
deriving DecidableEq

structure Service where
  rep : Nat
deriving DecidableEq

structure Endpoint where
  rep : Nat
deriving DecidableEq

structure PDB where
  rep : Nat
deriving DecidableEq

structure CronJob where
  rep : Nat
deriving DecidableEq

structure Deployment where
  rep : Nat
deriving DecidableEq

structure PoolSvc where
  rep : Nat
deriving DecidableEq

structure Secret where
  name : String
  username : String
  password : String
deriving DecidableEq

inductive RoleOrigin
  | infrastructure
  | manifest
  | unknown
deriving DecidableEq

structure PgUser where
  name : String
  password : String
  origin : RoleOrigin
deriving DecidableEq

def defaultPgUser : PgUser := { name := "", password := "", origin := .unknown }

/-- Association-list lookup (Go map read). -/
def alookup (k : String) : List (String × α) → Option α
  | [] => none
  | (k2, v) :: rest => if k2 = k then some v else alookup k rest

/-- Go map read with zero value. -/
def lookupD (xs : List (String × PgUser)) (k : String) : PgUser :=
  (alookup k xs).getD defaultPgUser

/-- Replace every entry carrying the key. -/
def alistReplace (k : String) (v : α) : List (String × α) → List (String × α)
  | [] => []
  | (k2, v2) :: rest =>
    if k2 = k then (k, v) :: alistReplace k v rest else (k2, v2) :: alistReplace k v rest

/-- Go map assignment: replace the entry if the key is present, append it
otherwise. -/
def alistSet (k : String) (v : α) (xs : List (String × α)) : List (String × α) :=
  if (alookup k xs).isSome then alistReplace k v xs else xs ++ [(k, v)]

/-- The connection-pool resource bundle `ConnectionPoolObjects`. -/
structure PoolObjects where
  deployment : Option Deployment
  service : Option PoolSvc
  lookupFunction : Bool
deriving DecidableEq

def emptyPool : PoolObjects := { deployment := none, service := none, lookupFunction := false }

inductive ClusterStatus
  | creating
  | running
  | syncFailed
deriving DecidableEq

/-- The mutable cluster aggregate: the fields of `Cluster` that `sync.go`
reads or writes. -/
structure Cluster where
  spec : PgSpec
  status : ClusterStatus
  services : RoleMap Service
  endpoints : RoleMap Endpoint
  statefulset : Option StatefulSet
  pdb : Option PDB
  secretsCache : List Secret
  pgUsers : List (String × PgUser)
  systemUsers : List (String × PgUser)
  connectionPool : Option PoolObjects
deriving DecidableEq

/-- The live secret store (the only store whose state the claims observe
across calls); keyed by secret name. -/
abbrev SecretStore := List (String × Secret)

inductive DbCtx
  | roles
  | databases
deriving DecidableEq

/-- One call issued to a collaborator. -/
inductive Event
  | getService (role : Role)
  | createService (role : Role)
  | updateService (role : Role)
  | getEndpoint (role : Role)
  | createEndpoint (role : Role)
  | getSecret (name : String)
  | createSecret (name : String)
  | updateSecret (name : String)
  | getStatefulSet
  | createStatefulSet
  | updateStatefulSet
  | replaceStatefulSet
  | listPods
  | applyRollingUpdateFlag (b : Bool)
  | setPostgresParameters (pod : String)
  | recreatePods
  | getPodDisruptionBudget
  | createPodDisruptionBudget
  | updatePodDisruptionBudget
  | getCronJob
  | createCronJob
  | patchCronJob
  | volumesResize
  | dbOpen (ctx : DbCtx)
  | dbClose (ctx : DbCtx)
  | logCloseError (ctx : DbCtx)
  | execSyncRequests
  | execCreateDatabase (name owner : String)
  | execAlterDatabaseOwner (name owner : String)
  | installLookup (schema user : String)
  | getPoolDeployment
  | createPoolDeployment
  | updatePoolDeployment
  | getPoolService
  | createPoolService
  | deletePool
deriving DecidableEq

/-- Calls that create, update, patch, replace or delete a stored resource
(reads and database statements are not store mutations). -/
def Event.isMutating : Event → Bool
  | .createService _ => true
  | .updateService _ => true
  | .createEndpoint _ => true
  | .createSecret _ => true
  | .updateSecret _ => true
  | .createStatefulSet => true
  | .updateStatefulSet => true
  | .replaceStatefulSet => true
  | .applyRollingUpdateFlag _ => true
  | .recreatePods => true
  | .createPodDisruptionBudget => true
  | .updatePodDisruptionBudget => true
  | .createCronJob => true
  | .patchCronJob => true
  | .volumesResize => true
  | .createPoolDeployment => true
  | .updatePoolDeployment => true
  | .createPoolService => true
  | .deletePool => true
  | _ => false

/-- Outcomes and pure values supplied by every collaborator called from
`sync.go`.  Transport outcomes are per call site; generators and comparators
are pure functions, as the spec requires. -/
structure Env where
  -- orchestrator collaborators
  initUsers : Cluster → Except GErr Cluster
  getNumberOfInstances : PgSpec → Int
  databaseAccessDisabled : Bool
  enforceMinResourceLimits : PgSpec → Except GErr PgSpec
  -- secrets
  secretNameOf : String → String
  secretCreateFault : String → Option GErr
  secretGetFault : String → Option GErr
  secretUpdateFault : String → Option GErr
  -- services
  serviceGet : Role → Except GErr Service
  serviceCreate : Role → Except GErr Service
  serviceGetAgain : Role → Except GErr Service
  generateService : Role → PgSpec → Service
  sameService : Service → Service → Bool × String
  updateService : Role → Service → Option GErr
  -- endpoints
  endpointGet : Role → Except GErr Endpoint
  endpointCreate : Role → Except GErr Endpoint
  endpointGetAgain : Role → Except GErr Endpoint
  generateEndpoint : Role → PgSpec → Endpoint
  -- volumes
  volumesNeedResizing : Nat → Except GErr Bool
  resizeVolumes : Option GErr
  -- statefulset
  statefulSetGet : Except GErr StatefulSet
  listPods : Except GErr (List Pod)
  createStatefulSet : Except GErr StatefulSet
  waitStatefulsetPodsReady : Option GErr
  applyRollingUpdateFlag : Bool → Option GErr
  mergeRollingUpdateFlagUsingCache : StatefulSet → Bool
  getNewPgVersion : Container → String → Except GErr String
  generateStatefulSet : PgSpec → Except GErr StatefulSet
  compareStatefulSetWith : StatefulSet → StatefulSet → SsCompare
  updateStatefulSet : StatefulSet → Option GErr
  replaceStatefulSet : StatefulSet → Option GErr
  isBootstrapOnlyParameter : String → Bool
  setPostgresParameters : Pod → List (String × String) → Option GErr
  recreatePods : Option GErr
  -- pod disruption budget
  pdbGet : Except GErr PDB
  generatePDB : PgSpec → PDB
  samePDB : PDB → PDB → Bool × String
  updatePDB : PDB → Option GErr
  pdbCreate : Except GErr PDB
  pdbGetAgain : Except GErr PDB
  -- logical backup job
  cronJobGet : Except GErr CronJob
  generateLogicalBackupJob : Except GErr CronJob
  sameLogicalBackupJob : CronJob → CronJob → Bool × String
  patchLogicalBackupJob : CronJob → Option GErr
  createLogicalBackupJob : Option GErr
  cronJobGetAgain : Except GErr CronJob
  -- database driver
  initDbConn : Option GErr
  closeDbConn : Option GErr
  readPgUsersFromDatabase : List String → Except GErr (List (String × PgUser))
  produceSyncRequests : List (String × PgUser) → List (String × PgUser) → List String
  executeSyncRequests : List String → Option GErr
  needConnectionPool : Cluster → Bool
  getDatabases : Except GErr (List (String × String))
  executeCreateDatabase : String → String → Option GErr
  executeAlterDatabaseOwner : String → String → Option GErr
  -- connection pool
  needConnectionPoolWorker : PgSpec → Bool
  installLookup : String → String → Option GErr
  opConfigPoolSchema : String
  opConfigPoolUser : String
  poolDeploymentGet : Except GErr Deployment
  generateConnPoolDeployment : PgSpec → Except GErr Deployment
  poolDeploymentCreate : Except GErr Deployment
  needSyncConnPoolSpecs : Option ConnPoolSpec → Option ConnPoolSpec → Bool × List String
  needSyncConnPoolDefaults : Option ConnPoolSpec → Deployment → Bool × List String
  updateConnPoolDeployment : Except GErr Deployment
  poolServiceGet : Except GErr PoolSvc
  generateConnPoolService : PgSpec → PoolSvc
  poolServiceCreate : Except GErr PoolSvc
  deleteConnectionPool : Option GErr

/-- `syncService` (sync.go lines 137-176): fetch; on found compare against the
generated definition and update on mismatch; on not-found create, tolerating a
raced create by one follow-up fetch.  On success the live resource is recorded
in cluster state (the repository's `updateService` records the updated object
itself; modelled here by recording the desired definition). -/
def syncService (env : Env) (c : Cluster) (role : Role) :
    Option GErr × Cluster × List Event :=
  match env.serviceGet role with
  | .ok svc =>
    let c := { c with services := c.services.set role (some svc) }
    let desiredSvc := env.generateService role c.spec
    if (env.sameService svc desiredSvc).1 then
      (none, c, [Event.getService role])
    else
      match env.updateService role desiredSvc with
      | some e =>
        (some (wrapErr ("could not update " ++ roleName role ++ " service to match desired state: ") e),
          c, [Event.getService role, Event.updateService role])
      | none =>
        (none, { c with services := c.services.set role (some desiredSvc) },
          [Event.getService role, Event.updateService role])
  | .error e =>
    if !(resourceNotFound e) then
      (some (wrapErr ("could not get " ++ roleName role ++ " service: ") e), c, [Event.getService role])
    else
      let c := { c with services := c.services.set role none }
      match env.serviceCreate role with
      | .ok svc =>
        (none, { c with services := c.services.set role (some svc) },
          [Event.getService role, Event.createService role])
      | .error e2 =>
        if !(resourceAlreadyExists e2) then
          (some (wrapErr ("could not create missing " ++ roleName role ++ " service: ") e2),
            c, [Event.getService role, Event.createService role])
        else
          match env.serviceGetAgain role with
          | .error e3 =>
            (some (wrapErr ("could not fetch existing " ++ roleName role ++ " service: ") e3),
              c, [Event.getService role, Event.createService role, Event.getService role])
          | .ok svc2 =>
            (none, { c with services := c.services.set role (some svc2) },
              [Event.getService role, Event.createService role, Event.getService role])

/-- `syncEndpoint` (sync.go lines 178-210): on found the endpoint is recorded
as fetched and the call returns; on not-found create, tolerating a raced
create by one follow-up fetch. -/
def syncEndpoint (env : Env) (c : Cluster) (role : Role) :
    Option GErr × Cluster × List Event :=
  match env.endpointGet role with
  | .ok ep =>
    (none, { c with endpoints := c.endpoints.set role (some ep) }, [Event.getEndpoint role])
  | .error e =>
    if !(resourceNotFound e) then
      (some (wrapErr ("could not get " ++ roleName role ++ " endpoint: ") e), c, [Event.getEndpoint role])
    else
      let c := { c with endpoints := c.endpoints.set role none }
      match env.endpointCreate role with
      | .ok ep =>
        (none, { c with endpoints := c.endpoints.set role (some ep) },
          [Event.getEndpoint role, Event.createEndpoint role])
      | .error e2 =>
        if !(resourceAlreadyExists e2) then
          (some (wrapErr ("could not create missing " ++ roleName role ++ " endpoint: ") e2),
            c, [Event.getEndpoint role, Event.createEndpoint role])
        else
          match env.endpointGetAgain role with
          | .error e3 =>
            (some (wrapErr ("could not fetch existing " ++ roleName role ++ " endpoint: ") e3),
              c, [Event.getEndpoint role, Event.createEndpoint role, Event.getEndpoint role])
          | .ok ep2 =>
            (none, { c with endpoints := c.endpoints.set role (some ep2) },
              [Event.getEndpoint role, Event.createEndpoint role, Event.getEndpoint role])

/-- One role iteration of `syncServices` (sync.go lines 121-135): endpoint
first, then service, each error wrapped with the role. -/
def syncServicesRole (env : Env) (c : Cluster) (role : Role) :
    Option GErr × Cluster × List Event :=
  match syncEndpoint env c role with
  | (some e, c1, tr) =>
    (some (wrapErr ("could not sync " ++ roleName role ++ " endpoint: ") e), c1, tr)
  | (none, c1, tr1) =>
    match syncService env c1 role with
    | (some e, c2, tr2) =>
      (some (wrapErr ("could not sync " ++ roleName role ++ " service: ") e), c2, tr1 ++ tr2)
    | (none, c2, tr2) => (none, c2, tr1 ++ tr2)

/-- `syncServices` (sync.go lines 121-135): master role then replica role. -/
def syncServices (env : Env) (c : Cluster) : Option GErr × Cluster × List Event :=
  match syncServicesRole env c .master with
  | (some e, c1, tr) => (some e, c1, tr)
  | (none, c1, tr1) =>
    match syncServicesRole env c1 .replica with
    | (r, c2, tr2) => (r, c2, tr1 ++ tr2)

/-- `syncPodDisruptionBudget` (sync.go lines 212-252). -/
def syncPodDisruptionBudget (env : Env) (c : Cluster) (_isUpdate : Bool) :
    Option GErr × Cluster × List Event :=
  match env.pdbGet with
  | .ok pdb =>
    let c := { c with pdb := some pdb }
    let newPDB := env.generatePDB c.spec
    if !(env.samePDB pdb newPDB).1 then
      match env.updatePDB newPDB with
      | some e => (some e, c, [Event.getPodDisruptionBudget, Event.updatePodDisruptionBudget])
      | none =>
        (none, { c with pdb := some newPDB },
          [Event.getPodDisruptionBudget, Event.updatePodDisruptionBudget])
    else
      (none, { c with pdb := some pdb }, [Event.getPodDisruptionBudget])
  | .error e =>
    if !(resourceNotFound e) then
      (some (wrapErr "could not get pod disruption budget: " e), c, [Event.getPodDisruptionBudget])
    else
      let c := { c with pdb := none }
      match env.pdbCreate with
      | .ok pdb =>
        (none, { c with pdb := some pdb },
          [Event.getPodDisruptionBudget, Event.createPodDisruptionBudget])
      | .error e2 =>
        if !(resourceAlreadyExists e2) then
          (some (wrapErr "could not create pod disruption budget: " e2),
            c, [Event.getPodDisruptionBudget, Event.createPodDisruptionBudget])
        else
          match env.pdbGetAgain with
          | .error e3 =>
            (some (wrapErr "could not fetch existing pod disruption budget: " e3),
              c, [Event.getPodDisruptionBudget, Event.createPodDisruptionBudget,
                  Event.getPodDisruptionBudget])
          | .ok pdb2 =>
            (none, { c with pdb := some pdb2 },
              [Event.getPodDisruptionBudget, Event.createPodDisruptionBudget,
                  Event.getPodDisruptionBudget])

/-- `syncLogicalBackupJob` (sync.go lines 570-621); the job is not cached in
cluster state by this function. -/
def syncLogicalBackupJob (env : Env) : Option GErr × List Event :=
  match env.cronJobGet with
  | .ok job =>
    match env.generateLogicalBackupJob with
    | .error e =>
      (some (wrapErr "could not generate the desired logical backup job state: " e), [Event.getCronJob])
    | .ok desiredJob =>
      if !(env.sameLogicalBackupJob job desiredJob).1 then
        match env.patchLogicalBackupJob desiredJob with
        | some e =>
          (some (wrapErr "could not update logical backup job to match desired state: " e),
            [Event.getCronJob, Event.patchCronJob])
        | none => (none, [Event.getCronJob, Event.patchCronJob])
      else (none, [Event.getCronJob])
  | .error e =>
    if !(resourceNotFound e) then
      (some (wrapErr "could not get logical backp job: " e), [Event.getCronJob])
    else
      match env.createLogicalBackupJob with
      | none => (none, [Event.getCronJob, Event.createCronJob])
      | some e2 =>
        if !(resourceAlreadyExists e2) then
          (some (wrapErr "could not create missing logical backup job: " e2),
            [Event.getCronJob, Event.createCronJob])
        else
          match env.cronJobGetAgain with
          | .error e3 =>
            (some (wrapErr "could not fetch existing logical backup job: " e3),
              [Event.getCronJob, Event.createCronJob, Event.getCronJob])
          | .ok _ => (none, [Event.getCronJob, Event.createCronJob, Event.getCronJob])

/-- Patroni loop of `checkAndSetGlobalPostgreSQLConfiguration` (sync.go lines
386-394): try every pod, succeed on the first pod that accepts the call. -/
def patroniAttempts (env : Env) (optionsToSet : List (String × String)) :
    List Pod → Bool × List Event
  | [] => (false, [])
  | p :: rest =>
    match env.setPostgresParameters p optionsToSet with
    | none => (true, [Event.setPostgresParameters p.name])
    | some _ =>
      match patroniAttempts env optionsToSet rest with
      | (b, tr) => (b, Event.setPostgresParameters p.name :: tr)

/-- `checkAndSetGlobalPostgreSQLConfiguration` (sync.go lines 358-397). -/
def checkAndSetGlobalPostgreSQLConfiguration (env : Env) (s : PgSpec) :
    Option GErr × List Event :=
  let optionsToSet := s.parameters.filter (fun kv => env.isBootstrapOnlyParameter kv.1)
  if optionsToSet.isEmpty then (none, [])
  else
    match env.listPods with
    | .error e => (some e, [Event.listPods])
    | .ok pods =>
      if pods.isEmpty then
        (some { cls := .other, msg := "could not call Patroni API: cluster has no pods" },
          [Event.listPods])
      else
        match patroniAttempts env optionsToSet pods with
        | (true, tr) => (none, Event.listPods :: tr)
        | (false, tr) =>
          (some { cls := .other,
                  msg := "could not reach Patroni API to set Postgres options: failed on every pod" },
            Event.listPods :: tr)

/-- Postgres-version reconciliation loop of `syncStatefulSet` (sync.go lines
296-305): for every container named postgres, fold the parsed running version
back into the desired spec. -/
def reconcilePgVersion (env : Env) : List Container → PgSpec → Except GErr PgSpec
  | [], s => .ok s
  | ct :: rest, s =>
    if ct.name = "postgres" then
      match env.getNewPgVersion ct s.pgVersion with
      | .error e => .error (wrapErr "could not parse current Postgres version: " e)
      | .ok v => reconcilePgVersion env rest { s with pgVersion := v }
    else reconcilePgVersion env rest s

/-- Modelled from the spec: `setRollingUpdateFlagForStatefulSet` stamps the
rolling-update-pending flag onto a statefulset definition. -/
def setRollingUpdateFlagForStatefulSet (s : StatefulSet) (b : Bool) : StatefulSet :=
  { s with rollingUpdateFlag := b }

/-- Effect of a successful `applyRollingUpdateFlagforStatefulSet`: the flag is
pushed onto the live workload object. -/
def applyFlagToCluster (c : Cluster) (b : Bool) : Cluster :=
  { c with statefulset := c.statefulset.map (fun s => { s with rollingUpdateFlag := b }) }

/-- Tail of `syncStatefulSet` shared by the absent and present branches
(sync.go lines 334-353): push Patroni-only parameters, then, if a rolling
update is pending, recreate every member pod and clear the flag; a failure to
clear is logged and is not an error. -/
def syncStatefulSetFinish (env : Env) (c : Cluster) (roll : Bool) (tr : List Event) :
    Option GErr × Cluster × List Event :=
  match checkAndSetGlobalPostgreSQLConfiguration env c.spec with
  | (some e, trP) =>
    (some (wrapErr "could not set cluster-wide PostgreSQL configuration options: " e), c, tr ++ trP)
  | (none, trP) =>
    if roll then
      match env.recreatePods with
      | some e => (some (wrapErr "could not recreate pods: " e), c, tr ++ trP ++ [Event.recreatePods])
      | none =>
        match env.applyRollingUpdateFlag false with
        | some _ =>
          (none, c, tr ++ trP ++ [Event.recreatePods, Event.applyRollingUpdateFlag false])
        | none =>
          (none, applyFlagToCluster c false,
            tr ++ trP ++ [Event.recreatePods, Event.applyRollingUpdateFlag false])
    else (none, c, tr ++ trP)

/-- `syncStatefulSet` (sync.go lines 254-354).  Absent branch: snapshot
possibly orphaned pods, create, wait for readiness, and if orphans existed set
and push the rolling-update flag.  Present branch: merge the pending flag from
cache and annotation, reconcile the running Postgres version into the spec,
generate and compare, update or replace on mismatch. -/
def syncStatefulSet (env : Env) (c : Cluster) : Option GErr × Cluster × List Event :=
  match env.statefulSetGet with
  | .error e =>
    if !(resourceNotFound e) then
      (some (wrapErr "could not get statefulset: " e), c, [Event.getStatefulSet])
    else
      let c := { c with statefulset := none }
      match env.listPods with
      | .error e2 =>
        (some (wrapErr "could not list pods of the statefulset: " e2), c,
          [Event.getStatefulSet, Event.listPods])
      | .ok pods =>
        match env.createStatefulSet with
        | .error e3 =>
          (some (wrapErr "could not create missing statefulset: " e3), c,
            [Event.getStatefulSet, Event.listPods, Event.createStatefulSet])
        | .ok sset =>
          let c := { c with statefulset := some sset }
          match env.waitStatefulsetPodsReady with
          | some e4 =>
            (some (wrapErr "cluster is not ready: " e4), c,
              [Event.getStatefulSet, Event.listPods, Event.createStatefulSet])
          | none =>
            let podsRollingUpdateRequired := !pods.isEmpty
            if podsRollingUpdateRequired then
              match env.applyRollingUpdateFlag true with
              | some e5 =>
                (some (wrapErr "could not set rolling update flag for the statefulset: " e5), c,
                  [Event.getStatefulSet, Event.listPods, Event.createStatefulSet,
                   Event.applyRollingUpdateFlag true])
              | none =>
                syncStatefulSetFinish env (applyFlagToCluster c true) podsRollingUpdateRequired
                  [Event.getStatefulSet, Event.listPods, Event.createStatefulSet,
                   Event.applyRollingUpdateFlag true]
            else
              syncStatefulSetFinish env c podsRollingUpdateRequired
                [Event.getStatefulSet, Event.listPods, Event.createStatefulSet]
  | .ok sset =>
    let podsRollingUpdateRequired := env.mergeRollingUpdateFlagUsingCache sset
    let c := { c with statefulset := some sset }
    match reconcilePgVersion env sset.containers c.spec with
    | .error e => (some e, c, [Event.getStatefulSet])
    | .ok spec2 =>
      let c := { c with spec := spec2 }
      match env.generateStatefulSet spec2 with
      | .error e => (some (wrapErr "could not generate statefulset: " e), c, [Event.getStatefulSet])
      | .ok dss0 =>
        let dss := setRollingUpdateFlagForStatefulSet dss0 podsRollingUpdateRequired
        let cmp := env.compareStatefulSetWith sset dss
        if cmp.matched then
          syncStatefulSetFinish env c podsRollingUpdateRequired [Event.getStatefulSet]
        else
          let needRoll := podsRollingUpdateRequired || cmp.rollingUpdate
          let dss2 :=
            if cmp.rollingUpdate && !podsRollingUpdateRequired then
              setRollingUpdateFlagForStatefulSet dss true
            else dss
          if !cmp.replace then
            match env.updateStatefulSet dss2 with
            | some e =>
              (some (wrapErr "could not update statefulset: " e), c,
                [Event.getStatefulSet, Event.updateStatefulSet])
            | none =>
              syncStatefulSetFinish env { c with statefulset := some dss2 } needRoll
                [Event.getStatefulSet, Event.updateStatefulSet]
          else
            match env.replaceStatefulSet dss2 with
            | some e =>
              (some (wrapErr "could not replace statefulset: " e), c,
                [Event.getStatefulSet, Event.replaceStatefulSet])
            | none =>
              syncStatefulSetFinish env { c with statefulset := some dss2 } needRoll
                [Event.getStatefulSet, Event.replaceStatefulSet]

def superuserKey : String := "superuser"

def replicationKey : String := "replication"

def connectionPoolUserKey : String := "pooler"

inductive UserMapKind
  | system
  | pg
deriving DecidableEq

def userMapOf (c : Cluster) : UserMapKind → List (String × PgUser)
  | .system => c.systemUsers
  | .pg => c.pgUsers

def setUserMap (c : Cluster) : UserMapKind → String → PgUser → Cluster
  | .system, k, u => { c with systemUsers := alistSet k u c.systemUsers }
  | .pg, k, u => { c with pgUsers := alistSet k u c.pgUsers }

/-- Key remap of `syncSecrets` (sync.go lines 423-431): a secret username
matching the superuser or replication system account is looked up in the
system registry under its key name; everything else is looked up in the
manifest-user registry under the username itself. -/
def secretKeyKind (c : Cluster) (secretUsername : String) : String × UserMapKind :=
  if secretUsername = (lookupD c.systemUsers superuserKey).name then (superuserKey, .system)
  else if secretUsername = (lookupD c.systemUsers replicationKey).name then (replicationKey, .system)
  else (secretUsername, .pg)

/-- Secret-store create: an injectable transport fault, else AlreadyExists
when the name is taken, else insert. -/
def secretStoreCreate (env : Env) (store : SecretStore) (s : Secret) :
    Except GErr (Secret × SecretStore) :=
  match env.secretCreateFault s.name with
  | some e => .error e
  | none =>
    if (alookup s.name store).isSome then
      .error { cls := .alreadyExists, msg := "secret already exists" }
    else .ok (s, store ++ [(s.name, s)])

/-- Secret-store get. -/
def secretStoreGet (env : Env) (store : SecretStore) (name : String) : Except GErr Secret :=
  match env.secretGetFault name with
  | some e => .error e
  | none =>
    match alookup name store with
    | some s => .ok s
    | none => .error { cls := .notFound, msg := "secret not found" }

/-- Secret-store update (the source updates with the generated `secretSpec`). -/
def secretStoreUpdate (env : Env) (store : SecretStore) (name : String) (s : Secret) :
    Except GErr SecretStore :=
  match env.secretUpdateFault name with
  | some e => .error e
  | none =>
    if (alookup name store).isSome then .ok (alistSet name s store)
    else .error { cls := .notFound, msg := "secret not found" }

/-- Modelled from the spec: `generateUserSecrets` produces one secret per
account of the in-memory registry, embedding the account name and its
configured password. -/
def generateUserSecrets (env : Env) (c : Cluster) : List (String × Secret) :=
  (c.systemUsers ++ c.pgUsers).map
    (fun kv => (kv.2.name,
      { name := env.secretNameOf kv.2.name, username := kv.2.name, password := kv.2.password }))

/-- Loop body of `syncSecrets` (sync.go lines 408-448) for one account:
attempt create; on AlreadyExists fetch the live secret, skip it on a username
collision, and merge passwords by account origin: Infrastructure pushes the
configured password into the secret, every other origin copies the live
password into the in-memory registry. -/
def syncSecretsStep (env : Env) (c : Cluster) (store : SecretStore)
    (secretUsername : String) (secretSpec : Secret) :
    Option GErr × Cluster × SecretStore × List Event :=
  match secretStoreCreate env store secretSpec with
  | .ok (secret, store2) =>
    (none, { c with secretsCache := c.secretsCache ++ [secret] }, store2,
      [Event.createSecret secretSpec.name])
  | .error e =>
    if resourceAlreadyExists e then
      match secretStoreGet env store secretSpec.name with
      | .error e2 =>
        (some (wrapErr "could not get current secret: " e2), c, store,
          [Event.createSecret secretSpec.name, Event.getSecret secretSpec.name])
      | .ok secret =>
        if secretUsername ≠ secret.username then
          (none, c, store, [Event.createSecret secretSpec.name, Event.getSecret secretSpec.name])
        else
          let kk := secretKeyKind c secretUsername
          let pwdUser := lookupD (userMapOf c kk.2) kk.1
          if pwdUser.password ≠ secret.password ∧ pwdUser.origin = RoleOrigin.infrastructure then
            match secretStoreUpdate env store secretSpec.name secretSpec with
            | .error e3 =>
              (some (wrapErr ("could not update infrastructure role secret for role " ++ kk.1 ++ ": ") e3),
                c, store,
                [Event.createSecret secretSpec.name, Event.getSecret secretSpec.name,
                 Event.updateSecret secretSpec.name])
            | .ok store3 =>
              (none, c, store3,
                [Event.createSecret secretSpec.name, Event.getSecret secretSpec.name,
                 Event.updateSecret secretSpec.name])
          else
            let pwdUser2 := { pwdUser with password := secret.password }
            (none, setUserMap c kk.2 kk.1 pwdUser2, store,
              [Event.createSecret secretSpec.name, Event.getSecret secretSpec.name])
    else
      (some (wrapErr ("could not create secret for user " ++ secretUsername ++ ": ") e), c, store,
        [Event.createSecret secretSpec.name])

/-- Loop of `syncSecrets` over the generated secrets, aborting on the first
error. -/
def syncSecretsGo (env : Env) :
    List (String × Secret) → Cluster → SecretStore →
    Option GErr × Cluster × SecretStore × List Event
  | [], c, store => (none, c, store, [])
  | (u, s) :: rest, c, store =>
    match syncSecretsStep env c store u s with
    | (some e, c2, st2, tr) => (some e, c2, st2, tr)
    | (none, c2, st2, tr) =>
      match syncSecretsGo env rest c2 st2 with
      | (r, c3, st3, tr2) => (r, c3, st3, tr ++ tr2)

/-- `syncSecrets` (sync.go lines 399-452). -/
def syncSecrets (env : Env) (c : Cluster) (store : SecretStore) :
    Option GErr × Cluster × SecretStore × List Event :=
  syncSecretsGo env (generateUserSecrets env c) c store

/-- Body of `syncRoles` between opening and closing the database connection
(sync.go lines 477-498). -/
def syncRolesBody (env : Env) (c : Cluster) : Option GErr × Cluster × List Event :=
  let userNames := c.pgUsers.map (fun kv => kv.2.name)
  let step :=
    if env.needConnectionPool c then
      let connPoolUser := lookupD c.systemUsers connectionPoolUserKey
      let names := userNames ++ [connPoolUser.name]
      if (alookup connPoolUser.name c.pgUsers).isSome then (c, names)
      else ({ c with pgUsers := c.pgUsers ++ [(connPoolUser.name, connPoolUser)] }, names)
    else (c, userNames)
  match env.readPgUsersFromDatabase step.2 with
  | .error e => (some (wrapErr "error getting users from the database: " e), step.1, [])
  | .ok dbUsers =>
    let pgSyncRequests := env.produceSyncRequests dbUsers step.1.pgUsers
    match env.executeSyncRequests pgSyncRequests with
    | some e => (some (wrapErr "error executing sync statements: " e), step.1, [Event.execSyncRequests])
    | none => (none, step.1, [Event.execSyncRequests])

/-- `syncRoles` (sync.go lines 454-501): open a scoped database connection,
run the body, and close on every exit path; a close failure is composed with
any prior error rather than dropped. -/
def syncRoles (env : Env) (c : Cluster) : Option GErr × Cluster × List Event :=
  match env.initDbConn with
  | some e => (some (wrapErr "could not init db connection: " e), c, [])
  | none =>
    match syncRolesBody env c with
    | (r, c2, tr) =>
      let res :=
        match env.closeDbConn with
        | none => r
        | some e2 =>
          match r with
          | none => some (wrapErr "could not close database connection: " e2)
          | some e =>
            some { cls := e2.cls,
                   msg := "could not close database connection: " ++ e2.msg ++
                          " (prior error: " ++ e.msg ++ ")" }
      (res, c2, [Event.dbOpen .roles] ++ tr ++ [Event.dbClose .roles])

/-- Statement loop of `syncDatabases` (sync.go lines 556-565): execute each
statement in order, returning the first failure unwrapped. -/
def execDbList (f : String → String → Option GErr) (mk : String → String → Event) :
    List (String × String) → Option GErr × List Event
  | [] => (none, [])
  | (n, o) :: rest =>
    match f n o with
    | some e => (some e, [mk n o])
    | none =>
      match execDbList f mk rest with
      | (r, tr) => (r, mk n o :: tr)

/-- Partition of `syncDatabases` (sync.go lines 543-550): declared databases
absent from the live map are to be created. -/
def dbToCreate (s : PgSpec) (currentDatabases : List (String × String)) :
    List (String × String) :=
  s.databases.filter (fun kv => (alookup kv.1 currentDatabases).isNone)

/-- Partition of `syncDatabases` (sync.go lines 543-550): declared databases
present live under a different owner are to have their owner altered. -/
def dbToAlter (s : PgSpec) (currentDatabases : List (String × String)) :
    List (String × String) :=
  s.databases.filter (fun kv =>
    match alookup kv.1 currentDatabases with
    | some currentOwner => decide (currentOwner ≠ kv.2)
    | none => false)

/-- Body of `syncDatabases` between opening and closing the connection
(sync.go lines 538-567): partition the declared databases into the ones to
create (absent live) and the ones whose owner must change, then execute all
creations before all owner changes. -/
def syncDatabasesBody (env : Env) (s : PgSpec) : Option GErr × List Event :=
  match env.getDatabases with
  | .error e => (some (wrapErr "could not get current databases: " e), [])
  | .ok currentDatabases =>
    let createDatabases := dbToCreate s currentDatabases
    let alterOwnerDatabases := dbToAlter s currentDatabases
    if createDatabases.length + alterOwnerDatabases.length = 0 then (none, [])
    else
      match execDbList env.executeCreateDatabase Event.execCreateDatabase createDatabases with
      | (some e, tr) => (some e, tr)
      | (none, tr) =>
        match execDbList env.executeAlterDatabaseOwner Event.execAlterDatabaseOwner
            alterOwnerDatabases with
        | (r, tr2) => (r, tr ++ tr2)

/-- `syncDatabases` (sync.go lines 523-568): the init-connection failure is
returned as a fresh unclassified error without the cause, and the deferred
close failure is only logged, leaving the returned error unchanged. -/
def syncDatabases (env : Env) (c : Cluster) : Option GErr × List Event :=
  match env.initDbConn with
  | some _ => (some { cls := .other, msg := "could not init database connection" }, [])
  | none =>
    match syncDatabasesBody env c.spec with
    | (r, tr) =>
      match env.closeDbConn with
      | none => (r, [Event.dbOpen .databases] ++ tr ++ [Event.dbClose .databases])
      | some _ =>
        (r, [Event.dbOpen .databases] ++ tr ++
            [Event.dbClose .databases, Event.logCloseError .databases])

def poolOf (c : Cluster) : PoolObjects := c.connectionPool.getD emptyPool

def setPoolDeployment (c : Cluster) (d : Option Deployment) : Cluster :=
  { c with connectionPool := some { poolOf c with deployment := d } }

def setPoolService (c : Cluster) (s : Option PoolSvc) : Cluster :=
  { c with connectionPool := some { poolOf c with service := s } }

def setPoolLookup (c : Cluster) (b : Bool) : Cluster :=
  { c with connectionPool := some { poolOf c with lookupFunction := b } }

/-- Modelled from the spec: `util.Coalesce` resolves a value by precedence,
explicit spec value first, operator-wide default otherwise. -/
def coalesce (a b : String) : String := if a ≠ "" then a else b

/-- Service tail of `syncConnectionPoolWorker` (sync.go lines 757-780):
create the pool service if absent (a raced create error is returned verbatim);
live updates of this resource are not attempted. -/
def syncConnPoolService (env : Env) (newSpec : PgSpec) (c : Cluster) (tr : List Event) :
    Option GErr × Cluster × List Event :=
  match env.poolServiceGet with
  | .error e =>
    if resourceNotFound e then
      let _serviceSpec := env.generateConnPoolService newSpec
      match env.poolServiceCreate with
      | .error e2 => (some e2, c, tr ++ [Event.getPoolService, Event.createPoolService])
      | .ok service =>
        (none, setPoolService c (some service),
          tr ++ [Event.getPoolService, Event.createPoolService])
    else
      (some (wrapErr "could not get connection pool service to sync: " e), c,
        tr ++ [Event.getPoolService])
  | .ok service => (none, setPoolService c (some service), tr ++ [Event.getPoolService])

/-- `syncConnectionPoolWorker` (sync.go lines 697-783): reconcile the pool
deployment (create if absent, update when spec-driven or platform-defaulted
fields differ — the update path returns immediately without touching the
service), then the pool service. -/
def syncConnectionPoolWorker (env : Env) (oldSpec newSpec : PgSpec) (c : Cluster) :
    Option GErr × Cluster × List Event :=
  match env.poolDeploymentGet with
  | .error e =>
    if resourceNotFound e then
      match env.generateConnPoolDeployment newSpec with
      | .error e2 =>
        (some (wrapErr "could not generate deployment for connection pool: " e2), c,
          [Event.getPoolDeployment])
      | .ok _deploymentSpec =>
        match env.poolDeploymentCreate with
        | .error e3 => (some e3, c, [Event.getPoolDeployment, Event.createPoolDeployment])
        | .ok deployment =>
          syncConnPoolService env newSpec (setPoolDeployment c (some deployment))
            [Event.getPoolDeployment, Event.createPoolDeployment]
    else
      (some (wrapErr "could not get connection pool deployment to sync: " e), c,
        [Event.getPoolDeployment])
  | .ok deployment =>
    let c := setPoolDeployment c (some deployment)
    let specSync := env.needSyncConnPoolSpecs oldSpec.connectionPool newSpec.connectionPool
    let defaultsSync := env.needSyncConnPoolDefaults newSpec.connectionPool deployment
    if specSync.1 || defaultsSync.1 then
      match env.generateConnPoolDeployment newSpec with
      | .error e2 =>
        (some (wrapErr "could not generate deployment for connection pool: " e2), c,
          [Event.getPoolDeployment])
      | .ok _newDeploymentSpec =>
        match env.updateConnPoolDeployment with
        | .error e3 => (some e3, c, [Event.getPoolDeployment, Event.updatePoolDeployment])
        | .ok deployment2 =>
          (none, setPoolDeployment c (some deployment2),
            [Event.getPoolDeployment, Event.updatePoolDeployment])
    else syncConnPoolService env newSpec c [Event.getPoolDeployment]

/-- `syncConnectionPool` (sync.go lines 623-691): pool needed-ness is computed
separately on the old and the new spec; when newly required (or the lookup
function is not marked installed) the database-side lookup function is
installed first; deletions of a no-longer-needed or stale pool are non-fatal. -/
def syncConnectionPool (env : Env) (oldSpec newSpec : PgSpec) (c0 : Cluster) :
    Option GErr × Cluster × List Event :=
  let c := if c0.connectionPool.isSome then c0 else { c0 with connectionPool := some emptyPool }
  let newNeedConnPool := env.needConnectionPoolWorker newSpec
  let oldNeedConnPool := env.needConnectionPoolWorker oldSpec
  let phase1 : Option GErr × Cluster × List Event :=
    if newNeedConnPool then
      let install : Option GErr × Cluster × List Event :=
        if !oldNeedConnPool || !(poolOf c).lookupFunction then
          let specSchema := match newSpec.connectionPool with
            | some p => p.schema
            | none => ""
          let specUser := match newSpec.connectionPool with
            | some p => p.user
            | none => ""
          let schema := coalesce specSchema env.opConfigPoolSchema
          let user := coalesce specUser env.opConfigPoolUser
          match env.installLookup schema user with
          | some e => (some e, c, [Event.installLookup schema user])
          | none => (none, setPoolLookup c true, [Event.installLookup schema user])
        else (none, c, [])
      match install with
      | (some e, c1, tri) => (some e, c1, tri)
      | (none, c1, tri) =>
        match syncConnectionPoolWorker env oldSpec newSpec c1 with
        | (r, c2, trw) => (r, c2, tri ++ trw)
    else (none, c, [])
  match phase1 with
  | (some e, c1, tr) => (some e, c1, tr)
  | (none, c1, tr) =>
    if oldNeedConnPool && !newNeedConnPool then
      match env.deleteConnectionPool with
      | some _ => (none, c1, tr ++ [Event.deletePool])
      | none => (none, { c1 with connectionPool := none }, tr ++ [Event.deletePool])
    else
      if !oldNeedConnPool && !newNeedConnPool &&
          ((poolOf c1).deployment.isSome || (poolOf c1).service.isSome) then
        match env.deleteConnectionPool with
        | some _ => (none, c1, tr ++ [Event.deletePool])
        | none => (none, { c1 with connectionPool := none }, tr ++ [Event.deletePool])
      else (none, c1, tr)

/-- `syncVolumes` (sync.go lines 503-521). -/
def syncVolumes (env : Env) (c : Cluster) : Option GErr × List Event :=
  match env.volumesNeedResizing c.spec.volumeSize with
  | .error e => (some (wrapErr "could not compare size of the volumes: " e), [])
  | .ok act =>
    if !act then (none, [])
    else
      match env.resizeVolumes with
      | some e => (some (wrapErr "could not sync volumes: " e), [Event.volumesResize])
      | none => (none, [Event.volumesResize])

/-- Steps of `Sync` from the pod disruption budget on (sync.go lines 83-118). -/
def syncRunAfterSS (env : Env) (oldSpec newSpec : PgSpec) (c : Cluster)
    (store : SecretStore) (tr : List Event) :
    Option GErr × Cluster × SecretStore × List Event :=
  match syncPodDisruptionBudget env c false with
  | (some e, c1, trp) =>
    (some (wrapErr "could not sync pod disruption budget: " e), c1, store, tr ++ trp)
  | (none, c1, trp) =>
    let backupStep : Option GErr × List Event :=
      if c1.spec.enableLogicalBackup && 0 < env.getNumberOfInstances c1.spec then
        syncLogicalBackupJob env
      else (none, [])
    match backupStep with
    | (some e, trb) =>
      (some (wrapErr "could not sync the logical backup job: " e), c1, store, tr ++ trp ++ trb)
    | (none, trb) =>
      let dbStep : Option GErr × Cluster × List Event :=
        if !(env.databaseAccessDisabled || env.getNumberOfInstances newSpec ≤ 0 ||
             c1.spec.standbyCluster) then
          match syncRoles env c1 with
          | (some e, c2, trr) => (some (wrapErr "could not sync roles: " e), c2, trr)
          | (none, c2, trr) =>
            match syncDatabases env c2 with
            | (some e, trd) => (some (wrapErr "could not sync databases: " e), c2, trr ++ trd)
            | (none, trd) => (none, c2, trr ++ trd)
        else (none, c1, [])
      match dbStep with
      | (some e, c2, trdb) => (some e, c2, store, tr ++ trp ++ trb ++ trdb)
      | (none, c2, trdb) =>
        match syncConnectionPool env oldSpec newSpec c2 with
        | (some e, c3, trc) =>
          (some (wrapErr "could not sync connection pool: " e), c3, store,
            tr ++ trp ++ trb ++ trdb ++ trc)
        | (none, c3, trc) => (none, c3, store, tr ++ trp ++ trb ++ trdb ++ trc)

/-- Step chain of `Sync` (sync.go lines 39-118), before the deferred status
update: first error aborts, except that an AlreadyExists-classified error from
the statefulset step is tolerated and the remaining steps still run. -/
def syncRun (env : Env) (oldSpec newSpec : PgSpec) (c : Cluster) (store : SecretStore) :
    Option GErr × Cluster × SecretStore × List Event :=
  match env.initUsers c with
  | .error e => (some (wrapErr "could not init users: " e), c, store, [])
  | .ok c1 =>
    match syncSecrets env c1 store with
    | (some e, c2, st2, tr1) => (some (wrapErr "could not sync secrets: " e), c2, st2, tr1)
    | (none, c2, st2, tr1) =>
      match syncServices env c2 with
      | (some e, c3, tr2) => (some (wrapErr "could not sync services: " e), c3, st2, tr1 ++ tr2)
      | (none, c3, tr2) =>
        match syncVolumes env c3 with
        | (some e, trv) =>
          (some (wrapErr "could not sync persistent volumes: " e), c3, st2, tr1 ++ tr2 ++ trv)
        | (none, trv) =>
          match env.enforceMinResourceLimits c3.spec with
          | .error e =>
            (some (wrapErr "could not enforce minimum resource limits: " e), c3, st2,
              tr1 ++ tr2 ++ trv)
          | .ok s2 =>
            let c4 := { c3 with spec := s2 }
            match syncStatefulSet env c4 with
            | (some e, c5, tr3) =>
              if !(resourceAlreadyExists e) then
                (some (wrapErr "could not sync statefulsets: " e), c5, st2,
                  tr1 ++ tr2 ++ trv ++ tr3)
              else syncRunAfterSS env oldSpec newSpec c5 st2 (tr1 ++ tr2 ++ trv ++ tr3)
            | (none, c5, tr3) => syncRunAfterSS env oldSpec newSpec c5 st2 (tr1 ++ tr2 ++ trv ++ tr3)

/-- `Sync` (sync.go lines 22-119): record the new spec, run the step chain,
and apply the deferred status update (any error sets SyncFailed, otherwise a
non-Running status becomes Running). -/
def Sync (env : Env) (newSpec : PgSpec) (c0 : Cluster) (store : SecretStore) :
    Option GErr × Cluster × SecretStore × List Event :=
  let oldSpec := c0.spec
  match syncRun env oldSpec newSpec { c0 with spec := newSpec } store with
  | (res, c1, st1, tr) =>
    let c2 :=
      match res with
      | some _ => { c1 with status := .syncFailed }
      | none => if c1.status ≠ .running then { c1 with status := .running } else c1
    (res, c2, st1, tr)

/-! Concrete fixtures: a steady environment in which every resource exists
and matches its desired definition, used to instantiate the theorems below on
explicit inputs. -/

def svc0 : Service := { rep := 0 }

def ep0 : Endpoint := { rep := 0 }

def pdb0 : PDB := { rep := 0 }

def job0 : CronJob := { rep := 0 }

def dep0 : Deployment := { rep := 0 }

def psvc0 : PoolSvc := { rep := 0 }

def sset0 : StatefulSet := { containers := [], rollingUpdateFlag := false, rep := 0 }

def spec0 : PgSpec :=
  { enableLogicalBackup := false, standbyCluster := false, databases := [],
    parameters := [], pgVersion := "12", connectionPool := none, volumeSize := 1 }

def userAlice : PgUser := { name := "alice", password := "pw-alice", origin := .manifest }

def userSuper : PgUser := { name := "postgres", password := "pw-super", origin := .infrastructure }

def userRepl : PgUser := { name := "standby", password := "pw-repl", origin := .infrastructure }

def userPool : PgUser := { name := "pooler", password := "pw-pool", origin := .infrastructure }

def cluster0 : Cluster :=
  { spec := spec0, status := .running,
    services := { forMaster := some svc0, forReplica := some svc0 },
    endpoints := { forMaster := some ep0, forReplica := some ep0 },
    statefulset := some sset0, pdb := some pdb0, secretsCache := [],
    pgUsers := [("alice", userAlice)],
    systemUsers := [(superuserKey, userSuper), (replicationKey, userRepl)],
    connectionPool := some { deployment := some dep0, service := some psvc0,
                             lookupFunction := true } }

def secretOf (u : PgUser) : Secret :=
  { name := u.name ++ "-secret", username := u.name, password := u.password }

def store0 : SecretStore :=
  [(userSuper.name ++ "-secret", secretOf userSuper),
   (userRepl.name ++ "-secret", secretOf userRepl),
   (userAlice.name ++ "-secret", secretOf userAlice)]

/-- A steady collaborator environment: every fetch finds the live resource,
every comparator reports a match, no transport faults. -/
def envA : Env :=
  { initUsers := fun c => .ok c
    getNumberOfInstances := fun _ => 2
    databaseAccessDisabled := false
    enforceMinResourceLimits := fun s => .ok s
    secretNameOf := fun n => n ++ "-secret"
    secretCreateFault := fun _ => none
    secretGetFault := fun _ => none
    secretUpdateFault := fun _ => none
    serviceGet := fun _ => .ok svc0
    serviceCreate := fun _ => .ok svc0
    serviceGetAgain := fun _ => .ok svc0
    generateService := fun _ _ => svc0
    sameService := fun _ _ => (true, "")
    updateService := fun _ _ => none
    endpointGet := fun _ => .ok ep0
    endpointCreate := fun _ => .ok ep0
    endpointGetAgain := fun _ => .ok ep0
    generateEndpoint := fun _ _ => ep0
    volumesNeedResizing := fun _ => .ok false
    resizeVolumes := none
    statefulSetGet := .ok sset0
    listPods := .ok []
    createStatefulSet := .ok sset0
    waitStatefulsetPodsReady := none
    applyRollingUpdateFlag := fun _ => none
    mergeRollingUpdateFlagUsingCache := fun _ => false
    getNewPgVersion := fun _ v => .ok v
    generateStatefulSet := fun _ => .ok sset0
    compareStatefulSetWith := fun _ _ =>
      { matched := true, rollingUpdate := false, replace := false, reasons := [] }
    updateStatefulSet := fun _ => none
    replaceStatefulSet := fun _ => none
    isBootstrapOnlyParameter := fun _ => false
    setPostgresParameters := fun _ _ => none
    recreatePods := none
    pdbGet := .ok pdb0
    generatePDB := fun _ => pdb0
    samePDB := fun _ _ => (true, "")
    updatePDB := fun _ => none
    pdbCreate := .ok pdb0
    pdbGetAgain := .ok pdb0
    cronJobGet := .ok job0
    generateLogicalBackupJob := .ok job0
    sameLogicalBackupJob := fun _ _ => (true, "")
    patchLogicalBackupJob := fun _ => none
    createLogicalBackupJob := none
    cronJobGetAgain := .ok job0
    initDbConn := none
    closeDbConn := none
    readPgUsersFromDatabase := fun _ => .ok []
    produceSyncRequests := fun _ _ => []
    executeSyncRequests := fun _ => none
    needConnectionPool := fun _ => false
    getDatabases := .ok []
    executeCreateDatabase := fun _ _ => none
    executeAlterDatabaseOwner := fun _ _ => none
    needConnectionPoolWorker := fun _ => true
    installLookup := fun _ _ => none
    opConfigPoolSchema := "pooler"
    opConfigPoolUser := "pooler"
    poolDeploymentGet := .ok dep0
    generateConnPoolDeployment := fun _ => .ok dep0
    poolDeploymentCreate := .ok dep0
    needSyncConnPoolSpecs := fun _ _ => (false, [])
    needSyncConnPoolDefaults := fun _ _ => (false, [])
    updateConnPoolDeployment := .ok dep0
    poolServiceGet := .ok psvc0
    generateConnPoolService := fun _ => psvc0
    poolServiceCreate := .ok psvc0
    deleteConnectionPool := none }

/-! Helper lemmas. -/

theorem alookup_mapset (k : String) (v : α) :
    ∀ xs : List (String × α), (alookup k xs).isSome →
      alookup k (alistReplace k v xs) = some v := by
  intro xs
  induction xs with
  | nil => simp [alookup]
  | cons hd tl ih =>
    obtain ⟨k2, v2⟩ := hd
    intro hs
    by_cases hk : k2 = k
    · subst hk
      simp [alookup, alistReplace]
    · simp only [alookup, hk, if_false] at hs
      simp [alookup, alistReplace, hk, ih hs]

theorem alookup_append_absent (k : String) (v : α) :
    ∀ xs : List (String × α), alookup k xs = none →
      alookup k (xs ++ [(k, v)]) = some v := by
  intro xs
  induction xs with
  | nil => simp [alookup]
  | cons hd tl ih =>
    obtain ⟨k2, v2⟩ := hd
    intro hn
    by_cases hk : k2 = k
    · simp [alookup, hk] at hn
    · simp only [alookup, hk, if_false] at hn
      simp [alookup, hk, ih hn]

theorem alookup_alistSet_self (k : String) (v : α) (xs : List (String × α)) :
    alookup k (alistSet k v xs) = some v := by
  unfold alistSet
  by_cases hs : (alookup k xs).isSome
  · simp only [hs, if_true]
    exact alookup_mapset k v xs hs
  · simp only [hs, if_false]
    exact alookup_append_absent k v xs (by
      cases h : alookup k xs with
      | none => rfl
      | some w => rw [h] at hs; simp at hs)

theorem execDbList_ok (f : String → String → Option GErr) (mk : String → String → Event) :
    ∀ xs : List (String × String), (∀ p ∈ xs, f p.1 p.2 = none) →
      execDbList f mk xs = (none, xs.map (fun p => mk p.1 p.2)) := by
  intro xs
  induction xs with
  | nil => intro _; rfl
  | cons hd tl ih =>
    intro hall
    have hhd : f hd.1 hd.2 = none := hall hd (by simp)
    have htl := ih (fun p hp => hall p (by simp [hp]))
    simp [execDbList, hhd, htl]

theorem recreate_notin_patroniAttempts (env : Env) (opts : List (String × String)) :
    ∀ pods : List Pod, Event.recreatePods ∉ (patroniAttempts env opts pods).2 := by
  intro pods
  induction pods with
  | nil => simp [patroniAttempts]
  | cons p rest ih =>
    cases h : env.setPostgresParameters p opts with
    | none => simp [patroniAttempts, h]
    | some e =>
      cases hrec : patroniAttempts env opts rest with
      | mk b tr =>
        rw [hrec] at ih
        simp only [patroniAttempts, h, hrec]
        simp only [List.mem_cons, not_or]
        exact ⟨by simp, ih⟩

theorem recreate_notin_checkAndSet (env : Env) (s : PgSpec) :
    Event.recreatePods ∉ (checkAndSetGlobalPostgreSQLConfiguration env s).2 := by
  unfold checkAndSetGlobalPostgreSQLConfiguration
  by_cases h : (s.parameters.filter (fun kv => env.isBootstrapOnlyParameter kv.1)).isEmpty
  · simp [h]
  · simp only [h, if_false]
    cases hl : env.listPods with
    | error e => simp
    | ok pods =>
      by_cases hp : pods.isEmpty
      · simp [hp]
      · simp only [hp, if_false]
        cases hpa : patroniAttempts env (s.parameters.filter (fun kv => env.isBootstrapOnlyParameter kv.1)) pods with
        | mk b tr =>
          have := recreate_notin_patroniAttempts env
            (s.parameters.filter (fun kv => env.isBootstrapOnlyParameter kv.1)) pods
          rw [hpa] at this
          cases b <;> simpa using this

theorem install_notin_connPoolService (env : Env) (ns : PgSpec) (c : Cluster)
    (s u : String) :
    ∀ tr : List Event, Event.installLookup s u ∉ tr →
      Event.installLookup s u ∉ (syncConnPoolService env ns c tr).2.2 := by
  intro tr htr
  unfold syncConnPoolService
  cases h : env.poolServiceGet with
  | ok svc => simpa using htr
  | error e =>
    by_cases hn : resourceNotFound e
    · simp only [hn, if_true]
      cases hc : env.poolServiceCreate <;> simpa using htr
    · simp only [hn, if_false]
      simpa using htr

theorem install_notin_worker (env : Env) (o n : PgSpec) (c : Cluster) (s u : String) :
    Event.installLookup s u ∉ (syncConnectionPoolWorker env o n c).2.2 := by
  unfold syncConnectionPoolWorker
  cases hg : env.poolDeploymentGet with
  | ok d =>
    by_cases hs : (env.needSyncConnPoolSpecs o.connectionPool n.connectionPool).1 ||
        (env.needSyncConnPoolDefaults n.connectionPool d).1
    · simp only [hs, if_true]
      cases hgen : env.generateConnPoolDeployment n with
      | error e2 => simp
      | ok nd =>
        cases hup : env.updateConnPoolDeployment <;> simp
    · simp only [hs, if_false]
      exact install_notin_connPoolService env n _ s u _ (by simp)
  | error e =>
    by_cases hn : resourceNotFound e
    · simp only [hn, if_true]
      cases hgen : env.generateConnPoolDeployment n with
      | error e2 => simp
      | ok d2 =>
        cases hc : env.poolDeploymentCreate with
        | error e3 => simp
        | ok d3 => exact install_notin_connPoolService env n _ s u _ (by simp)
    · simp only [hn, if_false]
      simp

/-- Steady condition for one account of `syncSecrets`: no transport faults,
the live secret exists under the generated name with the matching username,
its password agrees with the registry entry the source consults for this
account, and writing that entry back leaves the registry unchanged. -/
def SecretSteady (env : Env) (c : Cluster) (store : SecretStore) (u : String) (s : Secret) : Prop :=
  env.secretCreateFault s.name = none ∧ env.secretGetFault s.name = none ∧
  ∃ t, alookup s.name store = some t ∧ t.username = u ∧
    (lookupD (userMapOf c (secretKeyKind c u).2) (secretKeyKind c u).1).password = t.password ∧
    alistSet (secretKeyKind c u).1
      (lookupD (userMapOf c (secretKeyKind c u).2) (secretKeyKind c u).1)
      (userMapOf c (secretKeyKind c u).2) = userMapOf c (secretKeyKind c u).2

theorem syncSecretsStep_steady (env : Env) (c : Cluster) (store : SecretStore)
    (u : String) (s : Secret) (h : SecretSteady env c store u s) :
    syncSecretsStep env c store u s =
      (none, c, store, [Event.createSecret s.name, Event.getSecret s.name]) := by
  obtain ⟨cf, gf, t, ht, hu, hpw, hid⟩ := h
  have hcreate : secretStoreCreate env store s =
      .error { cls := .alreadyExists, msg := "secret already exists" } := by
    unfold secretStoreCreate
    rw [cf, ht]
    rfl
  have hget : secretStoreGet env store s.name = .ok t := by
    unfold secretStoreGet
    rw [gf, ht]
  have hset : setUserMap c (secretKeyKind c u).2 (secretKeyKind c u).1
      (PgUser.mk (lookupD (userMapOf c (secretKeyKind c u).2) (secretKeyKind c u).1).name
        t.password
        (lookupD (userMapOf c (secretKeyKind c u).2) (secretKeyKind c u).1).origin) = c := by
    have heta : PgUser.mk (lookupD (userMapOf c (secretKeyKind c u).2) (secretKeyKind c u).1).name
        t.password
        (lookupD (userMapOf c (secretKeyKind c u).2) (secretKeyKind c u).1).origin =
        lookupD (userMapOf c (secretKeyKind c u).2) (secretKeyKind c u).1 := by
      rw [← hpw]
    rw [heta]
    cases hk : (secretKeyKind c u).2 with
    | system =>
      rw [hk] at hid
      simp only [userMapOf] at hid ⊢
      simp only [setUserMap]
      rw [hid]
    | pg =>
      rw [hk] at hid
      simp only [userMapOf] at hid ⊢
      simp only [setUserMap]
      rw [hid]
  unfold syncSecretsStep
  simp only [hcreate, hget, resourceAlreadyExists, hu, hpw, ne_eq, not_true_eq_false,
    if_false, ite_false, false_and, if_true, ite_true, hset]

theorem syncSecretsGo_steady (env : Env) (c : Cluster) (store : SecretStore) :
    ∀ us : List (String × Secret), (∀ p ∈ us, SecretSteady env c store p.1 p.2) →
      syncSecretsGo env us c store =
        (none, c, store,
          us.flatMap (fun p => [Event.createSecret p.2.name, Event.getSecret p.2.name])) := by
  intro us
  induction us with
  | nil => intro _; rfl
  | cons hd tl ih =>
    intro hall
    have hhd := syncSecretsStep_steady env c store hd.1 hd.2 (hall hd (by simp))
    have htl := ih (fun p hp => hall p (by simp [hp]))
    simp only [syncSecretsGo, hhd, htl, List.flatMap_cons]

theorem filter_mutating_createget (us : List (String × Secret)) :
    (us.flatMap (fun p => [Event.createSecret p.2.name, Event.getSecret p.2.name])).filter
        Event.isMutating
      = us.map (fun p => Event.createSecret p.2.name) := by
  induction us with
  | nil => rfl
  | cons hd tl ih =>
    simp only [List.flatMap_cons, List.filter_append, ih, List.map_cons]
    rfl

theorem RoleMap.get_set (m : RoleMap α) (r : Role) (v : Option α) : (m.set r v).get r = v := by
  cases r <;> rfl

/-! Claim theorems. -/

/-- C9 (amended): endpoint reconciliation does not follow the found-branch of
the generic fetch-or-create pattern: when the live endpoint is fetched
successfully it is recorded in cluster state as-is and the call returns
immediately — no desired definition is compared against it and no update or
replace is applied. -/
theorem c9_endpoint_found_branch (env : Env) (c : Cluster) (role : Role) (ep : Endpoint)
    (h : env.endpointGet role = .ok ep) :
    syncEndpoint env c role =
      (none, { c with endpoints := c.endpoints.set role (some ep) },
        [Event.getEndpoint role]) := by
  unfold syncEndpoint
  rw [h]

/-- C9 witness: the found branch at a concrete steady input. -/
theorem c9_endpoint_found_branch_witness :
    syncEndpoint envA cluster0 .master =
      (none, { cluster0 with endpoints := cluster0.endpoints.set .master (some ep0) },
        [Event.getEndpoint .master]) :=
  c9_endpoint_found_branch envA cluster0 .master ep0 rfl

def envC9 : Env := { envA with generateEndpoint := fun _ _ => { rep := 1 } }

/-- C9 counterexample: the live master endpoint differs from the generated
desired definition, yet `syncEndpoint` returns after the fetch alone — no
update call is issued before the call returns, refuting the claimed
found-branch compare-and-update. -/
theorem c9_counterexample :
    envC9.endpointGet .master = .ok ep0 ∧
    envC9.generateEndpoint .master cluster0.spec ≠ ep0 ∧
    (syncEndpoint envC9 cluster0 .master).1 = none ∧
    (syncEndpoint envC9 cluster0 .master).2.2 = [Event.getEndpoint .master] :=
  ⟨rfl, by decide, rfl, rfl⟩

/-- C10: when the connection-pool deployment exists and spec-driven or
platform-defaulted fields differ, the worker updates the deployment, records
it, and returns immediately: the pool service is neither fetched nor created,
and the cached service reference is unchanged on that pass. -/
theorem c10_worker_update_returns_early (env : Env) (oldSpec newSpec : PgSpec) (c : Cluster)
    (d nd d2 : Deployment)
    (hg : env.poolDeploymentGet = .ok d)
    (hs : ((env.needSyncConnPoolSpecs oldSpec.connectionPool newSpec.connectionPool).1 ||
           (env.needSyncConnPoolDefaults newSpec.connectionPool d).1) = true)
    (hgen : env.generateConnPoolDeployment newSpec = .ok nd)
    (hup : env.updateConnPoolDeployment = .ok d2) :
    syncConnectionPoolWorker env oldSpec newSpec c =
      (none, setPoolDeployment c (some d2),
        [Event.getPoolDeployment, Event.updatePoolDeployment]) ∧
    (poolOf (syncConnectionPoolWorker env oldSpec newSpec c).2.1).service = (poolOf c).service := by
  have hmain : syncConnectionPoolWorker env oldSpec newSpec c =
      (none, setPoolDeployment c (some d2),
        [Event.getPoolDeployment, Event.updatePoolDeployment]) := by
    unfold syncConnectionPoolWorker
    simp only [hg, hs, hgen, hup, if_true]
    rfl
  refine ⟨hmain, ?_⟩
  rw [hmain]
  rfl

def envC10 : Env := { envA with needSyncConnPoolSpecs := fun _ _ => (true, ["ports changed"]) }

/-- C10 witness: a concrete pass in which the deployment differs and is
updated; the service reference is untouched. -/
theorem c10_worker_update_returns_early_witness :
    syncConnectionPoolWorker envC10 spec0 spec0 cluster0 =
      (none, setPoolDeployment cluster0 (some dep0),
        [Event.getPoolDeployment, Event.updatePoolDeployment]) ∧
    (poolOf (syncConnectionPoolWorker envC10 spec0 spec0 cluster0).2.1).service =
      (poolOf cluster0).service :=
  c10_worker_update_returns_early envC10 spec0 spec0 cluster0 dep0 dep0 dep0 rfl rfl rfl rfl

/-- C5 (amended): the create-race tolerance (AlreadyExists from a create call
answered by exactly one follow-up fetch, completing successfully with the
fetched resource) holds for the service, endpoint, pod disruption budget,
secret and logical-backup-job reconcilers, provided the follow-up fetch
succeeds; it does not hold for the statefulset and connection-pool
reconcilers, which return the raced create error without any follow-up fetch
(the statefulset one is tolerated by the orchestrator, the pool one is not). -/
theorem c5_amended :
    (∀ (env : Env) (c : Cluster) (role : Role) (e e2 : GErr) (svc2 : Service),
      env.serviceGet role = .error e → resourceNotFound e = true →
      env.serviceCreate role = .error e2 → resourceAlreadyExists e2 = true →
      env.serviceGetAgain role = .ok svc2 →
      (syncService env c role).1 = none ∧
      (syncService env c role).2.1.services.get role = some svc2 ∧
      (syncService env c role).2.2 =
        [Event.getService role, Event.createService role, Event.getService role]) ∧
    (∀ (env : Env) (c : Cluster) (role : Role) (e e2 : GErr) (ep2 : Endpoint),
      env.endpointGet role = .error e → resourceNotFound e = true →
      env.endpointCreate role = .error e2 → resourceAlreadyExists e2 = true →
      env.endpointGetAgain role = .ok ep2 →
      (syncEndpoint env c role).1 = none ∧
      (syncEndpoint env c role).2.1.endpoints.get role = some ep2 ∧
      (syncEndpoint env c role).2.2 =
        [Event.getEndpoint role, Event.createEndpoint role, Event.getEndpoint role]) ∧
    (∀ (env : Env) (c : Cluster) (e e2 : GErr) (pdb2 : PDB),
      env.pdbGet = .error e → resourceNotFound e = true →
      env.pdbCreate = .error e2 → resourceAlreadyExists e2 = true →
      env.pdbGetAgain = .ok pdb2 →
      (syncPodDisruptionBudget env c false).1 = none ∧
      (syncPodDisruptionBudget env c false).2.1.pdb = some pdb2 ∧
      (syncPodDisruptionBudget env c false).2.2 =
        [Event.getPodDisruptionBudget, Event.createPodDisruptionBudget,
         Event.getPodDisruptionBudget]) ∧
    (∀ (env : Env) (e e2 : GErr) (j : CronJob),
      env.cronJobGet = .error e → resourceNotFound e = true →
      env.createLogicalBackupJob = some e2 → resourceAlreadyExists e2 = true →
      env.cronJobGetAgain = .ok j →
      syncLogicalBackupJob env =
        (none, [Event.getCronJob, Event.createCronJob, Event.getCronJob])) ∧
    (∀ (env : Env) (c : Cluster) (store : SecretStore) (u : String) (s : Secret),
      SecretSteady env c store u s →
      syncSecretsStep env c store u s =
        (none, c, store, [Event.createSecret s.name, Event.getSecret s.name])) ∧
    (∀ (env : Env) (c : Cluster) (e e3 : GErr) (pods : List Pod),
      env.statefulSetGet = .error e → resourceNotFound e = true →
      env.listPods = .ok pods → env.createStatefulSet = .error e3 →
      syncStatefulSet env c =
        (some (wrapErr "could not create missing statefulset: " e3),
          { c with statefulset := none },
          [Event.getStatefulSet, Event.listPods, Event.createStatefulSet])) ∧
    (∀ (env : Env) (o n : PgSpec) (c : Cluster) (e e3 : GErr) (nd : Deployment),
      env.poolDeploymentGet = .error e → resourceNotFound e = true →
      env.generateConnPoolDeployment n = .ok nd →
      env.poolDeploymentCreate = .error e3 →
      syncConnectionPoolWorker env o n c =
        (some e3, c, [Event.getPoolDeployment, Event.createPoolDeployment])) := by
  refine ⟨?_, ?_, ?_, ?_, ?_, ?_, ?_⟩
  · intro env c role e e2 svc2 hg hn hc ha hg2
    unfold syncService
    simp [hg, hn, hc, ha, hg2, RoleMap.get_set]
  · intro env c role e e2 ep2 hg hn hc ha hg2
    unfold syncEndpoint
    simp [hg, hn, hc, ha, hg2, RoleMap.get_set]
  · intro env c e e2 pdb2 hg hn hc ha hg2
    unfold syncPodDisruptionBudget
    simp [hg, hn, hc, ha, hg2]
  · intro env e e2 j hg hn hc ha hg2
    unfold syncLogicalBackupJob
    simp [hg, hn, hc, ha, hg2]
  · intro env c store u s h
    exact syncSecretsStep_steady env c store u s h
  · intro env c e e3 pods hg hn hl hc
    unfold syncStatefulSet
    simp [hg, hn, hl, hc]
  · intro env o n c e e3 nd hg hn hgen hc
    unfold syncConnectionPoolWorker
    simp [hg, hn, hgen, hc]

def envC5w : Env :=
  { envA with
    serviceGet := fun _ => .error { cls := .notFound, msg := "nf" }
    serviceCreate := fun _ => .error { cls := .alreadyExists, msg := "ae" } }

/-- C5 witness: a raced service create answered by one follow-up fetch. -/
theorem c5_amended_witness :
    (syncService envC5w cluster0 .master).1 = none ∧
    (syncService envC5w cluster0 .master).2.1.services.get .master = some svc0 ∧
    (syncService envC5w cluster0 .master).2.2 =
      [Event.getService .master, Event.createService .master, Event.getService .master] :=
  c5_amended.1 envC5w cluster0 .master
    { cls := .notFound, msg := "nf" } { cls := .alreadyExists, msg := "ae" } svc0
    rfl rfl rfl rfl rfl

def envC5 : Env :=
  { envA with
    poolDeploymentGet := .error { cls := .notFound, msg := "nf" }
    poolDeploymentCreate := .error { cls := .alreadyExists, msg := "ae" } }

/-- C5 counterexample: for the connection-pool deployment kind, a create call
answered with AlreadyExists is returned as the reconciler's error and no
follow-up fetch of the deployment is performed, refuting the claim for every
resource kind. -/
theorem c5_counterexample :
    (syncConnectionPoolWorker envC5 spec0 spec0 cluster0).1 =
      some { cls := ErrClass.alreadyExists, msg := "ae" } ∧
    (syncConnectionPoolWorker envC5 spec0 spec0 cluster0).2.2 =
      [Event.getPoolDeployment, Event.createPoolDeployment] :=
  ⟨rfl, rfl⟩

def envC7 : Env := { envA with getDatabases := .ok [("a", "owner1")] }

def clusterC7 : Cluster :=
  { cluster0 with spec := { spec0 with databases := [("a", "owner2"), ("b", "owner1")] } }

/-- C7: `syncDatabases` partitions the declared databases into the ones
absent live (to create) and the ones present with a differing owner (to
alter), and executes every create statement before any owner-alter statement;
on the concrete instance live a:owner1, desired a:owner2 and b:owner1, it
issues exactly one create (for b) and one owner-alter (for a), create
preceding alter. -/
theorem c7_databases :
    (∀ (env : Env) (c : Cluster) (live : List (String × String)),
      env.initDbConn = none →
      env.getDatabases = .ok live →
      (∀ p ∈ dbToCreate c.spec live, env.executeCreateDatabase p.1 p.2 = none) →
      (∀ p ∈ dbToAlter c.spec live, env.executeAlterDatabaseOwner p.1 p.2 = none) →
      env.closeDbConn = none →
      syncDatabases env c =
        (none,
          [Event.dbOpen .databases] ++
          (dbToCreate c.spec live).map (fun p => Event.execCreateDatabase p.1 p.2) ++
          (dbToAlter c.spec live).map (fun p => Event.execAlterDatabaseOwner p.1 p.2) ++
          [Event.dbClose .databases])) ∧
    syncDatabases envC7 clusterC7 =
      (none,
        [Event.dbOpen .databases, Event.execCreateDatabase "b" "owner1",
         Event.execAlterDatabaseOwner "a" "owner2", Event.dbClose .databases]) := by
  constructor
  · intro env c live hinit hget hc ha hclose
    have hcr := execDbList_ok env.executeCreateDatabase Event.execCreateDatabase _ hc
    have hal := execDbList_ok env.executeAlterDatabaseOwner Event.execAlterDatabaseOwner _ ha
    unfold syncDatabases syncDatabasesBody
    by_cases hz : (dbToCreate c.spec live).length + (dbToAlter c.spec live).length = 0
    · have h1 : dbToCreate c.spec live = [] :=
        List.length_eq_zero.mp (Nat.eq_zero_of_add_eq_zero_right hz)
      have h2 : dbToAlter c.spec live = [] :=
        List.length_eq_zero.mp (Nat.eq_zero_of_add_eq_zero_left hz)
      simp [hinit, hget, hclose, hz, h1, h2]
    · simp [hinit, hget, hclose, hz, hcr, hal]
  · decide

/-- C7 witness: the general partition-and-order statement applied to the
concrete live and desired maps of the claim. -/
theorem c7_databases_witness :
    syncDatabases envC7 clusterC7 =
      (none,
        [Event.dbOpen .databases] ++
        (dbToCreate clusterC7.spec [("a", "owner1")]).map
          (fun p => Event.execCreateDatabase p.1 p.2) ++
        (dbToAlter clusterC7.spec [("a", "owner1")]).map
          (fun p => Event.execAlterDatabaseOwner p.1 p.2) ++
        [Event.dbClose .databases]) :=
  c7_databases.1 envC7 clusterC7 [("a", "owner1")] rfl rfl
    (fun _ _ => rfl) (fun _ _ => rfl) rfl

def envC8 : Env := { envA with closeDbConn := some { cls := .other, msg := "close failed" } }

/-- C8 counterexample: with a failing connection close and a successful body,
`syncDatabases` still returns no error — the close failure is only logged,
refuting that both reconcilers compose the close error into the returned
error. -/
theorem c8_counterexample :
    envC8.closeDbConn = some { cls := ErrClass.other, msg := "close failed" } ∧
    (syncDatabases envC8 cluster0).1 = none ∧
    Event.logCloseError .databases ∈ (syncDatabases envC8 cluster0).2 :=
  ⟨rfl, rfl, by decide⟩

/-- C8 (amended): both `syncRoles` and `syncDatabases` open a scoped database
connection and close it on every exit path following a successful open;
`syncRoles` composes a close failure with any prior in-flight error in the
returned error (close error alone when the body succeeded, close error
carrying the prior error otherwise), while `syncDatabases` logs the close
failure and returns the body's result unchanged. -/
theorem c8_amended :
    (∀ (env : Env) (c : Cluster), env.initDbConn = none →
      Event.dbClose .roles ∈ (syncRoles env c).2.2) ∧
    (∀ (env : Env) (c : Cluster) (e2 : GErr), env.initDbConn = none →
      env.closeDbConn = some e2 → (syncRolesBody env c).1 = none →
      (syncRoles env c).1 = some (wrapErr "could not close database connection: " e2)) ∧
    (∀ (env : Env) (c : Cluster) (e e2 : GErr), env.initDbConn = none →
      env.closeDbConn = some e2 → (syncRolesBody env c).1 = some e →
      (syncRoles env c).1 =
        some { cls := e2.cls,
               msg := "could not close database connection: " ++ e2.msg ++
                      " (prior error: " ++ e.msg ++ ")" }) ∧
    (∀ (env : Env) (c : Cluster), env.initDbConn = none →
      Event.dbClose .databases ∈ (syncDatabases env c).2) ∧
    (∀ (env : Env) (c : Cluster) (e2 : GErr), env.initDbConn = none →
      env.closeDbConn = some e2 →
      (syncDatabases env c).1 = (syncDatabasesBody env c.spec).1 ∧
      Event.logCloseError .databases ∈ (syncDatabases env c).2) := by
  refine ⟨?_, ?_, ?_, ?_, ?_⟩
  · intro env c hinit
    unfold syncRoles
    rcases hb : syncRolesBody env c with ⟨r, c2, tr⟩
    simp [hinit, hb]
  · intro env c e2 hinit hclose hbody
    unfold syncRoles
    rcases hb : syncRolesBody env c with ⟨r, c2, tr⟩
    rw [hb] at hbody
    simp only at hbody
    subst hbody
    simp [hinit, hb, hclose]
  · intro env c e e2 hinit hclose hbody
    unfold syncRoles
    rcases hb : syncRolesBody env c with ⟨r, c2, tr⟩
    rw [hb] at hbody
    simp only at hbody
    subst hbody
    simp [hinit, hb, hclose]
  · intro env c hinit
    unfold syncDatabases
    rcases hb : syncDatabasesBody env c.spec with ⟨r, tr⟩
    cases hcl : env.closeDbConn <;> simp [hinit, hb, hcl]
  · intro env c e2 hinit hclose
    unfold syncDatabases
    rcases hb : syncDatabasesBody env c.spec with ⟨r, tr⟩
    simp [hinit, hb, hclose]

def envC8w : Env :=
  { envA with
    closeDbConn := some { cls := .other, msg := "close failed" }
    readPgUsersFromDatabase := fun _ => .error { cls := .other, msg := "read failed" } }

/-- C8 witness: a concrete roles pass in which both the body and the close
fail; the returned error carries the close failure composed with the prior
error. -/
theorem c8_amended_witness :
    (syncRoles envC8w cluster0).1 =
      some { cls := ErrClass.other,
             msg := "could not close database connection: close failed (prior error: error getting users from the database: read failed)" } :=
  c8_amended.2.2.1 envC8w cluster0
    { cls := ErrClass.other, msg := "error getting users from the database: read failed" }
    { cls := ErrClass.other, msg := "close failed" } rfl rfl rfl

/-- C6: `syncConnectionPool` computes pool needed-ness separately on the old
and new spec and acts per case: new-needed syncs the pool resources through
the worker, first installing the database-side lookup function exactly when
pooling was not needed before or the lookup function is not marked installed
(schema and user resolved by precedence from the pool spec, falling back to
the operator config); old-needed and no longer new-needed deletes the pool
with failures non-fatal (the call returns no error); neither-needed with a
stale deployment or service reference deletes it under the same non-fatal
policy, and with an empty bundle does nothing. -/
theorem c6_connection_pool :
    (∀ (env : Env) (oldSpec newSpec : PgSpec) (c : Cluster) (schema user : String),
      c.connectionPool.isSome = true →
      env.needConnectionPoolWorker newSpec = true →
      (env.needConnectionPoolWorker oldSpec = false ∨ (poolOf c).lookupFunction = false) →
      schema = coalesce (match newSpec.connectionPool with
        | some p => p.schema
        | none => "") env.opConfigPoolSchema →
      user = coalesce (match newSpec.connectionPool with
        | some p => p.user
        | none => "") env.opConfigPoolUser →
      env.installLookup schema user = none →
      syncConnectionPool env oldSpec newSpec c =
        ((syncConnectionPoolWorker env oldSpec newSpec (setPoolLookup c true)).1,
         (syncConnectionPoolWorker env oldSpec newSpec (setPoolLookup c true)).2.1,
         Event.installLookup schema user ::
           (syncConnectionPoolWorker env oldSpec newSpec (setPoolLookup c true)).2.2)) ∧
    (∀ (env : Env) (oldSpec newSpec : PgSpec) (c : Cluster),
      c.connectionPool.isSome = true →
      env.needConnectionPoolWorker newSpec = true →
      env.needConnectionPoolWorker oldSpec = true →
      (poolOf c).lookupFunction = true →
      syncConnectionPool env oldSpec newSpec c =
        ((syncConnectionPoolWorker env oldSpec newSpec c).1,
         (syncConnectionPoolWorker env oldSpec newSpec c).2.1,
         (syncConnectionPoolWorker env oldSpec newSpec c).2.2) ∧
      ∀ s u, Event.installLookup s u ∉ (syncConnectionPool env oldSpec newSpec c).2.2) ∧
    (∀ (env : Env) (oldSpec newSpec : PgSpec) (c : Cluster),
      c.connectionPool.isSome = true →
      env.needConnectionPoolWorker oldSpec = true →
      env.needConnectionPoolWorker newSpec = false →
      (syncConnectionPool env oldSpec newSpec c).1 = none ∧
      (syncConnectionPool env oldSpec newSpec c).2.2 = [Event.deletePool]) ∧
    (∀ (env : Env) (oldSpec newSpec : PgSpec) (c : Cluster),
      c.connectionPool.isSome = true →
      env.needConnectionPoolWorker oldSpec = false →
      env.needConnectionPoolWorker newSpec = false →
      ((poolOf c).deployment.isSome || (poolOf c).service.isSome) = true →
      (syncConnectionPool env oldSpec newSpec c).1 = none ∧
      (syncConnectionPool env oldSpec newSpec c).2.2 = [Event.deletePool]) ∧
    (∀ (env : Env) (oldSpec newSpec : PgSpec) (c : Cluster),
      c.connectionPool.isSome = true →
      env.needConnectionPoolWorker oldSpec = false →
      env.needConnectionPoolWorker newSpec = false →
      (poolOf c).deployment = none → (poolOf c).service = none →
      syncConnectionPool env oldSpec newSpec c = (none, c, [])) := by
  refine ⟨?_, ?_, ?_, ?_, ?_⟩
  · intro env oldSpec newSpec c schema user hcp hnew hinst hsch huser hlook
    subst hsch
    subst huser
    unfold syncConnectionPool
    rcases hw : syncConnectionPoolWorker env oldSpec newSpec (setPoolLookup c true) with ⟨r, c2, trw⟩
    have hcond : (!env.needConnectionPoolWorker oldSpec || !(poolOf c).lookupFunction) = true := by
      rcases hinst with h | h <;> simp [h]
    cases r with
    | some e => simp [hcp, hnew, hcond, hlook, hw]
    | none => simp [hcp, hnew, hcond, hlook, hw]
  · intro env oldSpec newSpec c hcp hnew hold hflag
    have hcond : (!env.needConnectionPoolWorker oldSpec || !(poolOf c).lookupFunction) = false := by
      simp [hold, hflag]
    rcases hw : syncConnectionPoolWorker env oldSpec newSpec c with ⟨r, c2, trw⟩
    have hmain : syncConnectionPool env oldSpec newSpec c = (r, c2, trw) := by
      unfold syncConnectionPool
      cases r with
      | some e => simp [hcp, hnew, hcond, hw]
      | none => simp [hcp, hnew, hcond, hw]
    refine ⟨by rw [hmain], ?_⟩
    intro s u
    rw [hmain]
    have := install_notin_worker env oldSpec newSpec c s u
    rw [hw] at this
    exact this
  · intro env oldSpec newSpec c hcp hold hnew
    unfold syncConnectionPool
    cases hd : env.deleteConnectionPool with
    | some e => simp [hcp, hnew, hold, hd]
    | none => simp [hcp, hnew, hold, hd]
  · intro env oldSpec newSpec c hcp hold hnew hstale
    unfold syncConnectionPool
    cases hd : env.deleteConnectionPool with
    | some e => simp [hcp, hnew, hold, hstale, hd]
    | none => simp [hcp, hnew, hold, hstale, hd]
  · intro env oldSpec newSpec c hcp hold hnew hdep hsvc
    unfold syncConnectionPool
    simp [hcp, hnew, hold, hdep, hsvc]

/-- C6 witness: steady pool (needed before and after, lookup function marked
installed): the call defers to the worker and does not install the lookup
function. -/
theorem c6_connection_pool_witness :
    syncConnectionPool envA spec0 spec0 cluster0 =
      ((syncConnectionPoolWorker envA spec0 spec0 cluster0).1,
       (syncConnectionPoolWorker envA spec0 spec0 cluster0).2.1,
       (syncConnectionPoolWorker envA spec0 spec0 cluster0).2.2) ∧
    ∀ s u, Event.installLookup s u ∉ (syncConnectionPool envA spec0 spec0 cluster0).2.2 :=
  (c6_connection_pool.2.1 envA spec0 spec0 cluster0 rfl rfl rfl rfl)

/-- C3: for a declared account whose secret already exists with a matching
embedded username (stated for declared accounts, which are looked up in the
manifest-user registry; the superuser and replication system accounts take
the system-registry branch instead): when the account origin is
Infrastructure and the configured password differs from the live secret's
password, the per-account step of `syncSecrets` issues exactly one secret
update call and afterwards the live secret's password equals the configured
password; when the origin is not Infrastructure, no update call is issued and
afterwards the in-memory registry entry's password equals the live secret's
password. -/
theorem c3_secret_merge :
    (∀ (env : Env) (c : Cluster) (store : SecretStore) (u : String) (s t : Secret),
      env.secretCreateFault s.name = none → env.secretGetFault s.name = none →
      env.secretUpdateFault s.name = none →
      alookup s.name store = some t → t.username = u →
      u ≠ (lookupD c.systemUsers superuserKey).name →
      u ≠ (lookupD c.systemUsers replicationKey).name →
      (lookupD c.pgUsers u).origin = RoleOrigin.infrastructure →
      (lookupD c.pgUsers u).password ≠ t.password →
      s.password = (lookupD c.pgUsers u).password →
      syncSecretsStep env c store u s =
        (none, c, alistSet s.name s store,
          [Event.createSecret s.name, Event.getSecret s.name, Event.updateSecret s.name]) ∧
      (alookup s.name (alistSet s.name s store)).map Secret.password =
        some (lookupD c.pgUsers u).password) ∧
    (∀ (env : Env) (c : Cluster) (store : SecretStore) (u : String) (s t : Secret),
      env.secretCreateFault s.name = none → env.secretGetFault s.name = none →
      alookup s.name store = some t → t.username = u →
      u ≠ (lookupD c.systemUsers superuserKey).name →
      u ≠ (lookupD c.systemUsers replicationKey).name →
      (lookupD c.pgUsers u).origin ≠ RoleOrigin.infrastructure →
      syncSecretsStep env c store u s =
        (none,
          { c with pgUsers := (alistSet u
              (PgUser.mk (lookupD c.pgUsers u).name t.password (lookupD c.pgUsers u).origin)
              c.pgUsers) },
          store, [Event.createSecret s.name, Event.getSecret s.name]) ∧
      (lookupD (alistSet u
          (PgUser.mk (lookupD c.pgUsers u).name t.password (lookupD c.pgUsers u).origin)
          c.pgUsers) u).password = t.password) := by
  constructor
  · intro env c store u s t cf gf uf ht hu hsup hrep hio hpw hs
    have hcreate : secretStoreCreate env store s =
        .error { cls := .alreadyExists, msg := "secret already exists" } := by
      unfold secretStoreCreate
      rw [cf, ht]
      rfl
    have hget : secretStoreGet env store s.name = .ok t := by
      unfold secretStoreGet
      rw [gf, ht]
    have hupd : secretStoreUpdate env store s.name s = .ok (alistSet s.name s store) := by
      unfold secretStoreUpdate
      rw [uf, ht]
      rfl
    have hkk : secretKeyKind c u = (u, UserMapKind.pg) := by
      unfold secretKeyKind
      rw [if_neg hsup, if_neg hrep]
    constructor
    · unfold syncSecretsStep
      simp only [hcreate, hget, hkk, resourceAlreadyExists, hu, userMapOf, ne_eq,
        not_true_eq_false, if_false, ite_false, if_true, ite_true]
      simp [hio, hpw, hupd]
    · rw [alookup_alistSet_self]
      simp [hs]
  · intro env c store u s t cf gf ht hu hsup hrep hio
    have hcreate : secretStoreCreate env store s =
        .error { cls := .alreadyExists, msg := "secret already exists" } := by
      unfold secretStoreCreate
      rw [cf, ht]
      rfl
    have hget : secretStoreGet env store s.name = .ok t := by
      unfold secretStoreGet
      rw [gf, ht]
    have hkk : secretKeyKind c u = (u, UserMapKind.pg) := by
      unfold secretKeyKind
      rw [if_neg hsup, if_neg hrep]
    constructor
    · unfold syncSecretsStep
      simp only [hcreate, hget, hkk, resourceAlreadyExists, hu, userMapOf, ne_eq,
        not_true_eq_false, if_false, ite_false, if_true, ite_true]
      simp [hio, setUserMap]
    · rw [show lookupD (alistSet u
          (PgUser.mk (lookupD c.pgUsers u).name t.password (lookupD c.pgUsers u).origin)
          c.pgUsers) u =
        PgUser.mk (lookupD c.pgUsers u).name t.password (lookupD c.pgUsers u).origin from by
          unfold lookupD
          rw [alookup_alistSet_self]
          rfl]

def userBob : PgUser := { name := "bob", password := "pw-new", origin := .infrastructure }

def clusterC3 : Cluster := { cluster0 with pgUsers := [("alice", userAlice), ("bob", userBob)] }

def storeC3 : SecretStore :=
  [("bob-secret", { name := "bob-secret", username := "bob", password := "pw-old" }),
   ("alice-secret", { name := "alice-secret", username := "alice", password := "rotated" })]

/-- C3 witness: a concrete Infrastructure account (bob) whose live secret
holds a stale password is pushed the configured password with exactly one
update call, and a concrete Manifest account (alice) whose secret was rotated
externally gets the live password copied into the registry with no update
call. -/
theorem c3_secret_merge_witness :
    (syncSecretsStep envA clusterC3 storeC3 "bob" (secretOf userBob) =
      (none, clusterC3, alistSet "bob-secret" (secretOf userBob) storeC3,
        [Event.createSecret "bob-secret", Event.getSecret "bob-secret",
         Event.updateSecret "bob-secret"]) ∧
     (alookup "bob-secret" (alistSet "bob-secret" (secretOf userBob) storeC3)).map
        Secret.password = some (lookupD clusterC3.pgUsers "bob").password) ∧
    (syncSecretsStep envA clusterC3 storeC3 "alice" (secretOf userAlice) =
      (none,
        { clusterC3 with pgUsers := (alistSet "alice"
            (PgUser.mk (lookupD clusterC3.pgUsers "alice").name "rotated"
              (lookupD clusterC3.pgUsers "alice").origin)
            clusterC3.pgUsers) },
        storeC3, [Event.createSecret "alice-secret", Event.getSecret "alice-secret"]) ∧
     (lookupD (alistSet "alice"
          (PgUser.mk (lookupD clusterC3.pgUsers "alice").name "rotated"
            (lookupD clusterC3.pgUsers "alice").origin)
          clusterC3.pgUsers) "alice").password = "rotated") :=
  ⟨c3_secret_merge.1 envA clusterC3 storeC3 "bob" (secretOf userBob)
      { name := "bob-secret", username := "bob", password := "pw-old" }
      rfl rfl rfl (by decide) rfl (by decide) (by decide) (by decide) (by decide) rfl,
   c3_secret_merge.2 envA clusterC3 storeC3 "alice" (secretOf userAlice)
      { name := "alice-secret", username := "alice", password := "rotated" }
      rfl rfl (by decide) rfl (by decide) (by decide) (by decide)⟩

/-- C2: in `syncStatefulSet`, when the workload was absent and pods predating
the new workload were found (orphans), after a successful creation the
rolling-update-pending flag is set to true and pushed onto the live workload
object, the member pods are recreated, and only after recreation succeeds is
the flag cleared — the clear call comes last and its failure does not fail the
call (the conclusion holds for every outcome of the clear call); conversely,
when the workload was present, matched the desired definition, and no pending
flag was merged from cache or annotation, no pod recreation call is issued. -/
theorem c2_rolling_update :
    (∀ (env : Env) (c : Cluster) (e : GErr) (pods : List Pod) (sset : StatefulSet)
        (trP : List Event),
      env.statefulSetGet = .error e → resourceNotFound e = true →
      env.listPods = .ok pods → pods ≠ [] →
      env.createStatefulSet = .ok sset →
      env.waitStatefulsetPodsReady = none →
      env.applyRollingUpdateFlag true = none →
      checkAndSetGlobalPostgreSQLConfiguration env c.spec = (none, trP) →
      env.recreatePods = none →
      (syncStatefulSet env c).1 = none ∧
      (syncStatefulSet env c).2.2 =
        [Event.getStatefulSet, Event.listPods, Event.createStatefulSet,
         Event.applyRollingUpdateFlag true] ++ trP ++
        [Event.recreatePods, Event.applyRollingUpdateFlag false]) ∧
    (∀ (env : Env) (c : Cluster) (sset : StatefulSet) (s2 : PgSpec) (dss : StatefulSet)
        (trP : List Event),
      env.statefulSetGet = .ok sset →
      env.mergeRollingUpdateFlagUsingCache sset = false →
      reconcilePgVersion env sset.containers c.spec = .ok s2 →
      env.generateStatefulSet s2 = .ok dss →
      (env.compareStatefulSetWith sset
        (setRollingUpdateFlagForStatefulSet dss false)).matched = true →
      checkAndSetGlobalPostgreSQLConfiguration env s2 = (none, trP) →
      (syncStatefulSet env c).1 = none ∧
      Event.recreatePods ∉ (syncStatefulSet env c).2.2) := by
  constructor
  · intro env c e pods sset trP hg hn hl hpods hcr hw ha1 hpat hrec
    have hne : pods.isEmpty = false := by
      cases pods with
      | nil => exact absurd rfl hpods
      | cons a b => rfl
    unfold syncStatefulSet syncStatefulSetFinish
    simp only [hg, hn, hl, hcr, hw, ha1, hne, applyFlagToCluster, hpat, hrec,
      Bool.not_true, Bool.not_false, if_false, if_true, ite_true, ite_false]
    cases hcl : env.applyRollingUpdateFlag false <;> simp [hcl]
  · intro env c sset s2 dss trP hg hm hv hgen hcmp hpat
    have hni : Event.recreatePods ∉ trP := by
      have := recreate_notin_checkAndSet env s2
      rw [hpat] at this
      exact this
    unfold syncStatefulSet syncStatefulSetFinish
    simp only [hg, hm, hv, hgen, hcmp, hpat, if_true, ite_true, if_false, ite_false,
      Bool.false_eq_true]
    simp [hni]

def envC2 : Env :=
  { envA with
    statefulSetGet := .error { cls := .notFound, msg := "nf" }
    listPods := .ok [{ name := "pod-0" }] }

/-- C2 witness: a concrete absent-workload pass with one orphan pod (flag
pushed, pods recreated, flag cleared last) and a concrete present-and-matching
pass with no merged flag (no recreation call). -/
theorem c2_rolling_update_witness :
    ((syncStatefulSet envC2 cluster0).1 = none ∧
     (syncStatefulSet envC2 cluster0).2.2 =
       [Event.getStatefulSet, Event.listPods, Event.createStatefulSet,
        Event.applyRollingUpdateFlag true] ++ [] ++
       [Event.recreatePods, Event.applyRollingUpdateFlag false]) ∧
    ((syncStatefulSet envA cluster0).1 = none ∧
     Event.recreatePods ∉ (syncStatefulSet envA cluster0).2.2) :=
  ⟨c2_rolling_update.1 envC2 cluster0 { cls := .notFound, msg := "nf" }
      [{ name := "pod-0" }] sset0 [] rfl rfl rfl (by decide) rfl rfl rfl rfl rfl,
   c2_rolling_update.2 envA cluster0 sset0 spec0 sset0 [] rfl rfl rfl rfl rfl rfl⟩

/-- C1: `Sync` runs its steps in the fixed order — record spec, init users,
secrets, services and endpoints, volumes, minimum resource limits,
statefulset, pod disruption budget, conditional logical-backup job,
conditional roles then databases, connection pool.  The first error aborts
every remaining step (the trace contains no call from a later step) and is
the returned error wrapped with its step context; the single exception is an
AlreadyExists-classified error from the statefulset step, which does not
abort the pass, the remaining steps still run and the pass can return no
error. -/
theorem c1_sync_order :
    (∀ (env : Env) (newSpec : PgSpec) (c0 : Cluster) (store : SecretStore) (e : GErr),
      env.initUsers { c0 with spec := newSpec } = .error e →
      (Sync env newSpec c0 store).1 = some (wrapErr "could not init users: " e) ∧
      (Sync env newSpec c0 store).2.2.2 = []) ∧
    (∀ (env : Env) (newSpec : PgSpec) (c0 : Cluster) (store : SecretStore)
        (c1 : Cluster) (e : GErr) (c2 : Cluster) (st2 : SecretStore) (tr1 : List Event),
      env.initUsers { c0 with spec := newSpec } = .ok c1 →
      syncSecrets env c1 store = (some e, c2, st2, tr1) →
      (Sync env newSpec c0 store).1 = some (wrapErr "could not sync secrets: " e) ∧
      (Sync env newSpec c0 store).2.2.2 = tr1) ∧
    (∀ (env : Env) (newSpec : PgSpec) (c0 : Cluster) (store : SecretStore)
        (c1 c2 : Cluster) (st2 : SecretStore) (tr1 : List Event)
        (e : GErr) (c3 : Cluster) (tr2 : List Event),
      env.initUsers { c0 with spec := newSpec } = .ok c1 →
      syncSecrets env c1 store = (none, c2, st2, tr1) →
      syncServices env c2 = (some e, c3, tr2) →
      (Sync env newSpec c0 store).1 = some (wrapErr "could not sync services: " e) ∧
      (Sync env newSpec c0 store).2.2.2 = tr1 ++ tr2) ∧
    (∀ (env : Env) (newSpec : PgSpec) (c0 : Cluster) (store : SecretStore)
        (c1 c2 : Cluster) (st2 : SecretStore) (tr1 : List Event)
        (c3 : Cluster) (tr2 : List Event) (e : GErr) (trv : List Event),
      env.initUsers { c0 with spec := newSpec } = .ok c1 →
      syncSecrets env c1 store = (none, c2, st2, tr1) →
      syncServices env c2 = (none, c3, tr2) →
      syncVolumes env c3 = (some e, trv) →
      (Sync env newSpec c0 store).1 = some (wrapErr "could not sync persistent volumes: " e) ∧
      (Sync env newSpec c0 store).2.2.2 = tr1 ++ tr2 ++ trv) ∧
    (∀ (env : Env) (newSpec : PgSpec) (c0 : Cluster) (store : SecretStore)
        (c1 c2 : Cluster) (st2 : SecretStore) (tr1 : List Event)
        (c3 : Cluster) (tr2 trv : List Event) (e : GErr),
      env.initUsers { c0 with spec := newSpec } = .ok c1 →
      syncSecrets env c1 store = (none, c2, st2, tr1) →
      syncServices env c2 = (none, c3, tr2) →
      syncVolumes env c3 = (none, trv) →
      env.enforceMinResourceLimits c3.spec = .error e →
      (Sync env newSpec c0 store).1 =
        some (wrapErr "could not enforce minimum resource limits: " e) ∧
      (Sync env newSpec c0 store).2.2.2 = tr1 ++ tr2 ++ trv) ∧
    (∀ (env : Env) (newSpec : PgSpec) (c0 : Cluster) (store : SecretStore)
        (c1 c2 : Cluster) (st2 : SecretStore) (tr1 : List Event)
        (c3 : Cluster) (tr2 trv : List Event) (s2 : PgSpec)
        (e : GErr) (c5 : Cluster) (tr3 : List Event),
      env.initUsers { c0 with spec := newSpec } = .ok c1 →
      syncSecrets env c1 store = (none, c2, st2, tr1) →
      syncServices env c2 = (none, c3, tr2) →
      syncVolumes env c3 = (none, trv) →
      env.enforceMinResourceLimits c3.spec = .ok s2 →
      syncStatefulSet env { c3 with spec := s2 } = (some e, c5, tr3) →
      resourceAlreadyExists e = false →
      (Sync env newSpec c0 store).1 = some (wrapErr "could not sync statefulsets: " e) ∧
      (Sync env newSpec c0 store).2.2.2 = tr1 ++ tr2 ++ trv ++ tr3) ∧
    (∀ (env : Env) (newSpec : PgSpec) (c0 : Cluster) (store : SecretStore)
        (c1 c2 : Cluster) (st2 : SecretStore) (tr1 : List Event)
        (c3 : Cluster) (tr2 trv : List Event) (s2 : PgSpec)
        (c5 : Cluster) (tr3 : List Event) (e : GErr) (c6 : Cluster) (trp : List Event),
      env.initUsers { c0 with spec := newSpec } = .ok c1 →
      syncSecrets env c1 store = (none, c2, st2, tr1) →
      syncServices env c2 = (none, c3, tr2) →
      syncVolumes env c3 = (none, trv) →
      env.enforceMinResourceLimits c3.spec = .ok s2 →
      syncStatefulSet env { c3 with spec := s2 } = (none, c5, tr3) →
      syncPodDisruptionBudget env c5 false = (some e, c6, trp) →
      (Sync env newSpec c0 store).1 =
        some (wrapErr "could not sync pod disruption budget: " e) ∧
      (Sync env newSpec c0 store).2.2.2 = tr1 ++ tr2 ++ trv ++ tr3 ++ trp) ∧
    (∀ (env : Env) (newSpec : PgSpec) (c0 : Cluster) (store : SecretStore)
        (c1 c2 : Cluster) (st2 : SecretStore) (tr1 : List Event)
        (c3 : Cluster) (tr2 trv : List Event) (s2 : PgSpec)
        (c5 : Cluster) (tr3 : List Event) (c6 : Cluster) (trp : List Event)
        (e : GErr) (trb : List Event),
      env.initUsers { c0 with spec := newSpec } = .ok c1 →
      syncSecrets env c1 store = (none, c2, st2, tr1) →
      syncServices env c2 = (none, c3, tr2) →
      syncVolumes env c3 = (none, trv) →
      env.enforceMinResourceLimits c3.spec = .ok s2 →
      syncStatefulSet env { c3 with spec := s2 } = (none, c5, tr3) →
      syncPodDisruptionBudget env c5 false = (none, c6, trp) →
      c6.spec.enableLogicalBackup = true →
      0 < env.getNumberOfInstances c6.spec →
      syncLogicalBackupJob env = (some e, trb) →
      (Sync env newSpec c0 store).1 =
        some (wrapErr "could not sync the logical backup job: " e) ∧
      (Sync env newSpec c0 store).2.2.2 = tr1 ++ tr2 ++ trv ++ tr3 ++ trp ++ trb) ∧
    (∀ (env : Env) (newSpec : PgSpec) (c0 : Cluster) (store : SecretStore)
        (c1 c2 : Cluster) (st2 : SecretStore) (tr1 : List Event)
        (c3 : Cluster) (tr2 trv : List Event) (s2 : PgSpec)
        (c5 : Cluster) (tr3 : List Event) (c6 : Cluster) (trp : List Event)
        (e : GErr) (c7 : Cluster) (trr : List Event),
      env.initUsers { c0 with spec := newSpec } = .ok c1 →
      syncSecrets env c1 store = (none, c2, st2, tr1) →
      syncServices env c2 = (none, c3, tr2) →
      syncVolumes env c3 = (none, trv) →
      env.enforceMinResourceLimits c3.spec = .ok s2 →
      syncStatefulSet env { c3 with spec := s2 } = (none, c5, tr3) →
      syncPodDisruptionBudget env c5 false = (none, c6, trp) →
      c6.spec.enableLogicalBackup = false →
      env.databaseAccessDisabled = false →
      ¬(env.getNumberOfInstances newSpec ≤ 0) →
      c6.spec.standbyCluster = false →
      syncRoles env c6 = (some e, c7, trr) →
      (Sync env newSpec c0 store).1 = some (wrapErr "could not sync roles: " e) ∧
      (Sync env newSpec c0 store).2.2.2 = tr1 ++ tr2 ++ trv ++ tr3 ++ trp ++ trr) ∧
    (∀ (env : Env) (newSpec : PgSpec) (c0 : Cluster) (store : SecretStore)
        (c1 c2 : Cluster) (st2 : SecretStore) (tr1 : List Event)
        (c3 : Cluster) (tr2 trv : List Event) (s2 : PgSpec)
        (c5 : Cluster) (tr3 : List Event) (c6 : Cluster) (trp : List Event)
        (c7 : Cluster) (trr : List Event) (e : GErr) (trd : List Event),
      env.initUsers { c0 with spec := newSpec } = .ok c1 →
      syncSecrets env c1 store = (none, c2, st2, tr1) →
      syncServices env c2 = (none, c3, tr2) →
      syncVolumes env c3 = (none, trv) →
      env.enforceMinResourceLimits c3.spec = .ok s2 →
      syncStatefulSet env { c3 with spec := s2 } = (none, c5, tr3) →
      syncPodDisruptionBudget env c5 false = (none, c6, trp) →
      c6.spec.enableLogicalBackup = false →
      env.databaseAccessDisabled = false →
      ¬(env.getNumberOfInstances newSpec ≤ 0) →
      c6.spec.standbyCluster = false →
      syncRoles env c6 = (none, c7, trr) →
      syncDatabases env c7 = (some e, trd) →
      (Sync env newSpec c0 store).1 = some (wrapErr "could not sync databases: " e) ∧
      (Sync env newSpec c0 store).2.2.2 = tr1 ++ tr2 ++ trv ++ tr3 ++ trp ++ trr ++ trd) ∧
    (∀ (env : Env) (newSpec : PgSpec) (c0 : Cluster) (store : SecretStore)
        (c1 c2 : Cluster) (st2 : SecretStore) (tr1 : List Event)
        (c3 : Cluster) (tr2 trv : List Event) (s2 : PgSpec)
        (c5 : Cluster) (tr3 : List Event) (c6 : Cluster) (trp : List Event)
        (e : GErr) (c8 : Cluster) (trc : List Event),
      env.initUsers { c0 with spec := newSpec } = .ok c1 →
      syncSecrets env c1 store = (none, c2, st2, tr1) →
      syncServices env c2 = (none, c3, tr2) →
      syncVolumes env c3 = (none, trv) →
      env.enforceMinResourceLimits c3.spec = .ok s2 →
      syncStatefulSet env { c3 with spec := s2 } = (none, c5, tr3) →
      syncPodDisruptionBudget env c5 false = (none, c6, trp) →
      c6.spec.enableLogicalBackup = false →
      env.databaseAccessDisabled = true →
      syncConnectionPool env c0.spec newSpec c6 = (some e, c8, trc) →
      (Sync env newSpec c0 store).1 = some (wrapErr "could not sync connection pool: " e) ∧
      (Sync env newSpec c0 store).2.2.2 = tr1 ++ tr2 ++ trv ++ tr3 ++ trp ++ trc) ∧
    (∀ (env : Env) (newSpec : PgSpec) (c0 : Cluster) (store : SecretStore)
        (c1 c2 : Cluster) (st2 : SecretStore) (tr1 : List Event)
        (c3 : Cluster) (tr2 trv : List Event) (s2 : PgSpec)
        (e : GErr) (c5 : Cluster) (tr3 : List Event) (c6 : Cluster) (trp : List Event)
        (c8 : Cluster) (trc : List Event),
      env.initUsers { c0 with spec := newSpec } = .ok c1 →
      syncSecrets env c1 store = (none, c2, st2, tr1) →
      syncServices env c2 = (none, c3, tr2) →
      syncVolumes env c3 = (none, trv) →
      env.enforceMinResourceLimits c3.spec = .ok s2 →
      syncStatefulSet env { c3 with spec := s2 } = (some e, c5, tr3) →
      resourceAlreadyExists e = true →
      syncPodDisruptionBudget env c5 false = (none, c6, trp) →
      c6.spec.enableLogicalBackup = false →
      env.databaseAccessDisabled = true →
      syncConnectionPool env c0.spec newSpec c6 = (none, c8, trc) →
      (Sync env newSpec c0 store).1 = none ∧
      (Sync env newSpec c0 store).2.2.2 = tr1 ++ tr2 ++ trv ++ tr3 ++ trp ++ trc) ∧
    (∀ (env : Env) (newSpec : PgSpec) (c0 : Cluster) (store : SecretStore)
        (c1 c2 : Cluster) (st2 : SecretStore) (tr1 : List Event)
        (c3 : Cluster) (tr2 trv : List Event) (s2 : PgSpec)
        (c5 : Cluster) (tr3 : List Event) (c6 : Cluster) (trp trb : List Event)
        (c7 : Cluster) (trr trd : List Event) (c8 : Cluster) (trc : List Event),
      env.initUsers { c0 with spec := newSpec } = .ok c1 →
      syncSecrets env c1 store = (none, c2, st2, tr1) →
      syncServices env c2 = (none, c3, tr2) →
      syncVolumes env c3 = (none, trv) →
      env.enforceMinResourceLimits c3.spec = .ok s2 →
      syncStatefulSet env { c3 with spec := s2 } = (none, c5, tr3) →
      syncPodDisruptionBudget env c5 false = (none, c6, trp) →
      c6.spec.enableLogicalBackup = true →
      0 < env.getNumberOfInstances c6.spec →
      syncLogicalBackupJob env = (none, trb) →
      env.databaseAccessDisabled = false →
      ¬(env.getNumberOfInstances newSpec ≤ 0) →
      c6.spec.standbyCluster = false →
      syncRoles env c6 = (none, c7, trr) →
      syncDatabases env c7 = (none, trd) →
      syncConnectionPool env c0.spec newSpec c7 = (none, c8, trc) →
      (Sync env newSpec c0 store).1 = none ∧
      (Sync env newSpec c0 store).2.2.1 = st2 ∧
      (Sync env newSpec c0 store).2.2.2 =
        tr1 ++ tr2 ++ trv ++ tr3 ++ trp ++ trb ++ trr ++ trd ++ trc) := by
  refine ⟨?_, ?_, ?_, ?_, ?_, ?_, ?_, ?_, ?_, ?_, ?_, ?_, ?_⟩
  · intro env newSpec c0 store e h1
    unfold Sync syncRun
    simp [h1]
  · intro env newSpec c0 store c1 e c2 st2 tr1 h1 h2
    unfold Sync syncRun
    simp [h1, h2]
  · intro env newSpec c0 store c1 c2 st2 tr1 e c3 tr2 h1 h2 h3
    unfold Sync syncRun
    simp [h1, h2, h3]
  · intro env newSpec c0 store c1 c2 st2 tr1 c3 tr2 e trv h1 h2 h3 h4
    unfold Sync syncRun
    simp [h1, h2, h3, h4]
  · intro env newSpec c0 store c1 c2 st2 tr1 c3 tr2 trv e h1 h2 h3 h4 h5
    unfold Sync syncRun
    simp [h1, h2, h3, h4, h5]
  · intro env newSpec c0 store c1 c2 st2 tr1 c3 tr2 trv s2 e c5 tr3 h1 h2 h3 h4 h5 h6 hae
    unfold Sync syncRun
    simp [h1, h2, h3, h4, h5, h6, hae]
  · intro env newSpec c0 store c1 c2 st2 tr1 c3 tr2 trv s2 c5 tr3 e c6 trp
      h1 h2 h3 h4 h5 h6 h7
    unfold Sync syncRun syncRunAfterSS
    simp [h1, h2, h3, h4, h5, h6, h7]
  · intro env newSpec c0 store c1 c2 st2 tr1 c3 tr2 trv s2 c5 tr3 c6 trp e trb
      h1 h2 h3 h4 h5 h6 h7 hb hcnt h8
    unfold Sync syncRun syncRunAfterSS
    simp [h1, h2, h3, h4, h5, h6, h7, hb, hcnt, h8]
  · intro env newSpec c0 store c1 c2 st2 tr1 c3 tr2 trv s2 c5 tr3 c6 trp e c7 trr
      h1 h2 h3 h4 h5 h6 h7 hb hdis hcnt hstb h8
    unfold Sync syncRun syncRunAfterSS
    simp [h1, h2, h3, h4, h5, h6, h7, hb, hdis, hcnt, hstb, h8]
  · intro env newSpec c0 store c1 c2 st2 tr1 c3 tr2 trv s2 c5 tr3 c6 trp c7 trr e trd
      h1 h2 h3 h4 h5 h6 h7 hb hdis hcnt hstb h8 h9
    unfold Sync syncRun syncRunAfterSS
    simp [h1, h2, h3, h4, h5, h6, h7, hb, hdis, hcnt, hstb, h8, h9]
  · intro env newSpec c0 store c1 c2 st2 tr1 c3 tr2 trv s2 c5 tr3 c6 trp e c8 trc
      h1 h2 h3 h4 h5 h6 h7 hb hdis h8
    unfold Sync syncRun syncRunAfterSS
    simp [h1, h2, h3, h4, h5, h6, h7, hb, hdis, h8]
  · intro env newSpec c0 store c1 c2 st2 tr1 c3 tr2 trv s2 e c5 tr3 c6 trp c8 trc
      h1 h2 h3 h4 h5 h6 hae h7 hb hdis h8
    unfold Sync syncRun syncRunAfterSS
    simp [h1, h2, h3, h4, h5, h6, hae, h7, hb, hdis, h8]
  · intro env newSpec c0 store c1 c2 st2 tr1 c3 tr2 trv s2 c5 tr3 c6 trp trb c7 trr trd c8 trc
      h1 h2 h3 h4 h5 h6 h7 hb hcnt h8 hdis hcnt2 hstb h9 h10 h11
    unfold Sync syncRun syncRunAfterSS
    simp [h1, h2, h3, h4, h5, h6, h7, hb, hcnt, h8, hdis, hcnt2, hstb, h9, h10, h11]

def specB : PgSpec := { spec0 with enableLogicalBackup := true }

def clusterB : Cluster := { cluster0 with spec := specB }

/-- C1 witness: a full happy-path pass (logical backup enabled, database
access enabled) at a concrete steady environment returns no error. -/
theorem c1_sync_order_witness : (Sync envA specB clusterB store0).1 = none :=
  (c1_sync_order.2.2.2.2.2.2.2.2.2.2.2.2 envA specB clusterB store0
    _ _ _ _ _ _ _ _ _ _ _ _ _ _ _ _ _ _
    rfl rfl rfl rfl rfl rfl rfl rfl (by decide) rfl rfl (by decide) rfl rfl rfl rfl).1

/-- Steady-state hypotheses of the idempotence claim: every resource already
exists and matches its desired definition, the registries agree with the live
secrets, and no transport fault occurs — the parenthetical of the claim,
holding at the start of the second `Sync` call. -/
structure SteadyHyp (env : Env) (c : Cluster) (store : SecretStore) : Prop where
  init : env.initUsers c = .ok c
  secrets : ∀ p ∈ generateUserSecrets env c, SecretSteady env c store p.1 p.2
  epM : ∃ ep, env.endpointGet .master = .ok ep ∧ c.endpoints.forMaster = some ep
  epR : ∃ ep, env.endpointGet .replica = .ok ep ∧ c.endpoints.forReplica = some ep
  svcM : ∃ svc, env.serviceGet .master = .ok svc ∧ c.services.forMaster = some svc ∧
    (env.sameService svc (env.generateService .master c.spec)).1 = true
  svcR : ∃ svc, env.serviceGet .replica = .ok svc ∧ c.services.forReplica = some svc ∧
    (env.sameService svc (env.generateService .replica c.spec)).1 = true
  vol : env.volumesNeedResizing c.spec.volumeSize = .ok false
  limits : env.enforceMinResourceLimits c.spec = .ok c.spec
  ss : ∃ sset, env.statefulSetGet = .ok sset ∧ c.statefulset = some sset ∧
    env.mergeRollingUpdateFlagUsingCache sset = false ∧
    reconcilePgVersion env sset.containers c.spec = .ok c.spec ∧
    ∃ dss, env.generateStatefulSet c.spec = .ok dss ∧
      (env.compareStatefulSetWith sset
        (setRollingUpdateFlagForStatefulSet dss false)).matched = true
  noBootstrap : c.spec.parameters.filter (fun kv => env.isBootstrapOnlyParameter kv.1) = []
  pdb : ∃ p, env.pdbGet = .ok p ∧ c.pdb = some p ∧
    (env.samePDB p (env.generatePDB c.spec)).1 = true
  backup : c.spec.enableLogicalBackup = false ∨
    (∃ j dj, env.cronJobGet = .ok j ∧ env.generateLogicalBackupJob = .ok dj ∧
      (env.sameLogicalBackupJob j dj).1 = true)
  dbaccess : env.databaseAccessDisabled = false
  inst : ¬(env.getNumberOfInstances c.spec ≤ 0)
  standby : c.spec.standbyCluster = false
  rolesOpen : env.initDbConn = none
  rolesClose : env.closeDbConn = none
  noPoolUser : env.needConnectionPool c = false
  rolesRead : ∃ dbu,
    env.readPgUsersFromDatabase (c.pgUsers.map (fun kv => kv.2.name)) = .ok dbu ∧
    env.executeSyncRequests (env.produceSyncRequests dbu c.pgUsers) = none
  dbs : ∃ live, env.getDatabases = .ok live ∧
    ∀ p ∈ c.spec.databases, alookup p.1 live = some p.2
  poolNew : env.needConnectionPoolWorker c.spec = true
  poolFlag : (poolOf c).lookupFunction = true
  poolSome : c.connectionPool.isSome = true
  poolDep : ∃ d, env.poolDeploymentGet = .ok d ∧
    (env.needSyncConnPoolSpecs c.spec.connectionPool c.spec.connectionPool).1 = false ∧
    (env.needSyncConnPoolDefaults c.spec.connectionPool d).1 = false
  poolSvc : ∃ sv, env.poolServiceGet = .ok sv

/-- C4 (amended): calling `Sync` again with an unchanged spec and no external
interference (all resources already exist and match the desired definitions)
returns no error and issues zero update and delete calls; its only mutating
store calls are the per-account secret create attempts (each answered with
AlreadyExists and causing no state change).  The claim's stronger form — zero
create calls as well — fails, because `syncSecrets` is create-first. -/
theorem c4_amended (env : Env) (c : Cluster) (store : SecretStore)
    (h : SteadyHyp env c store) :
    (Sync env c.spec c store).1 = none ∧
    (Sync env c.spec c store).2.2.2.filter Event.isMutating =
      (generateUserSecrets env c).map (fun p => Event.createSecret p.2.name) := by
  have hsec : syncSecrets env c store =
      (none, c, store,
        (generateUserSecrets env c).flatMap
          (fun p => [Event.createSecret p.2.name, Event.getSecret p.2.name])) := by
    unfold syncSecrets
    exact syncSecretsGo_steady env c store _ h.secrets
  obtain ⟨epM, hepMg, hepMr⟩ := h.epM
  obtain ⟨epR, hepRg, hepRr⟩ := h.epR
  obtain ⟨svcM, hsvcMg, hsvcMr, hsvcMs⟩ := h.svcM
  obtain ⟨svcR, hsvcRg, hsvcRr, hsvcRs⟩ := h.svcR
  have hmapEpM : c.endpoints.set .master (some epM) = c.endpoints := by
    show ({ c.endpoints with forMaster := some epM } : RoleMap Endpoint) = c.endpoints
    rw [← hepMr]
  have hmapEpR : c.endpoints.set .replica (some epR) = c.endpoints := by
    show ({ c.endpoints with forReplica := some epR } : RoleMap Endpoint) = c.endpoints
    rw [← hepRr]
  have hmapSvcM : c.services.set .master (some svcM) = c.services := by
    show ({ c.services with forMaster := some svcM } : RoleMap Service) = c.services
    rw [← hsvcMr]
  have hmapSvcR : c.services.set .replica (some svcR) = c.services := by
    show ({ c.services with forReplica := some svcR } : RoleMap Service) = c.services
    rw [← hsvcRr]
  have hepM' : syncEndpoint env c .master = (none, c, [Event.getEndpoint .master]) := by
    unfold syncEndpoint
    simp [hepMg, hmapEpM]
  have hepR' : syncEndpoint env c .replica = (none, c, [Event.getEndpoint .replica]) := by
    unfold syncEndpoint
    simp [hepRg, hmapEpR]
  have hsvcM' : syncService env c .master = (none, c, [Event.getService .master]) := by
    unfold syncService
    simp [hsvcMg, hmapSvcM, hsvcMs]
  have hsvcR' : syncService env c .replica = (none, c, [Event.getService .replica]) := by
    unfold syncService
    simp [hsvcRg, hmapSvcR, hsvcRs]
  have hsvcs : syncServices env c =
      (none, c, [Event.getEndpoint .master, Event.getService .master,
                 Event.getEndpoint .replica, Event.getService .replica]) := by
    unfold syncServices syncServicesRole
    simp [hepM', hepR', hsvcM', hsvcR']
  have hvol : syncVolumes env c = (none, []) := by
    unfold syncVolumes
    simp [h.vol]
  obtain ⟨sset, hssg, hssrec, hmerge, hver, dss, hgen, hcmp⟩ := h.ss
  have hchk : checkAndSetGlobalPostgreSQLConfiguration env c.spec = (none, []) := by
    unfold checkAndSetGlobalPostgreSQLConfiguration
    simp [h.noBootstrap]
  have hcss : ({ c with statefulset := some sset } : Cluster) = c := by rw [← hssrec]
  have hss' : syncStatefulSet env c = (none, c, [Event.getStatefulSet]) := by
    unfold syncStatefulSet syncStatefulSetFinish
    simp [hssg, hmerge, hver, hgen, hcmp, hcss, hchk]
  obtain ⟨p, hpg, hprec, hpsame⟩ := h.pdb
  have hcp : ({ c with pdb := some p } : Cluster) = c := by rw [← hprec]
  have hpdb' : syncPodDisruptionBudget env c false =
      (none, c, [Event.getPodDisruptionBudget]) := by
    unfold syncPodDisruptionBudget
    simp [hpg, hpsame, hcp]
  obtain ⟨dbu, hread, hexec⟩ := h.rolesRead
  have hroles' : syncRoles env c =
      (none, c, [Event.dbOpen .roles, Event.execSyncRequests, Event.dbClose .roles]) := by
    unfold syncRoles syncRolesBody
    simp [h.rolesOpen, h.noPoolUser, hread, hexec, h.rolesClose]
  obtain ⟨live, hgetdb, hall⟩ := h.dbs
  have hcr0 : dbToCreate c.spec live = [] := by
    unfold dbToCreate
    rw [List.filter_eq_nil_iff]
    intro q hq
    simp [hall q hq]
  have hal0 : dbToAlter c.spec live = [] := by
    unfold dbToAlter
    rw [List.filter_eq_nil_iff]
    intro q hq
    simp [hall q hq]
  have hdbs' : syncDatabases env c =
      (none, [Event.dbOpen .databases, Event.dbClose .databases]) := by
    unfold syncDatabases syncDatabasesBody
    simp [h.rolesOpen, hgetdb, hcr0, hal0, h.rolesClose]
  obtain ⟨d, hdg, hspecs, hdefs⟩ := h.poolDep
  obtain ⟨sv, hsg⟩ := h.poolSvc
  have hpool' : syncConnectionPool env c.spec c.spec c =
      (none, setPoolService (setPoolDeployment c (some d)) (some sv),
        [Event.getPoolDeployment, Event.getPoolService]) := by
    unfold syncConnectionPool syncConnectionPoolWorker syncConnPoolService
    simp [h.poolSome, h.poolNew, h.poolFlag, hdg, hspecs, hdefs, hsg]
  have hceta : ({ c with spec := c.spec } : Cluster) = c := rfl
  rcases h.backup with hb | ⟨j, dj, hjg, hjgen, hjsame⟩
  · unfold Sync syncRun syncRunAfterSS
    simp [hceta, h.init, hsec, hsvcs, hvol, h.limits, hss', hpdb', hb, h.dbaccess,
      h.inst, h.standby, hroles', hdbs', hpool', List.filter_append,
      filter_mutating_createget, Event.isMutating]
  · have hjob : syncLogicalBackupJob env = (none, [Event.getCronJob]) := by
      unfold syncLogicalBackupJob
      simp [hjg, hjgen, hjsame]
    have hpos : 0 < env.getNumberOfInstances c.spec := not_le.mp h.inst
    unfold Sync syncRun syncRunAfterSS
    by_cases hb2 : c.spec.enableLogicalBackup = true
    · simp [hceta, h.init, hsec, hsvcs, hvol, h.limits, hss', hpdb', hjob, hb2, hpos,
        h.dbaccess, h.inst, h.standby, hroles', hdbs', hpool', List.filter_append,
        filter_mutating_createget, Event.isMutating]
    · simp [hceta, h.init, hsec, hsvcs, hvol, h.limits, hss', hpdb', hjob, hb2,
        h.dbaccess, h.inst, h.standby, hroles', hdbs', hpool', List.filter_append,
        filter_mutating_createget, Event.isMutating]

theorem steady_envA : SteadyHyp envA cluster0 store0 := by
  refine
    { init := rfl
      secrets := ?_
      epM := ⟨ep0, rfl, rfl⟩
      epR := ⟨ep0, rfl, rfl⟩
      svcM := ⟨svc0, rfl, rfl, rfl⟩
      svcR := ⟨svc0, rfl, rfl, rfl⟩
      vol := rfl
      limits := rfl
      ss := ⟨sset0, rfl, rfl, rfl, rfl, sset0, rfl, rfl⟩
      noBootstrap := rfl
      pdb := ⟨pdb0, rfl, rfl, rfl⟩
      backup := Or.inl rfl
      dbaccess := rfl
      inst := by decide
      standby := rfl
      rolesOpen := rfl
      rolesClose := rfl
      noPoolUser := rfl
      rolesRead := ⟨[], rfl, rfl⟩
      dbs := ⟨[], rfl, by intro q hq; simp [spec0, cluster0] at hq⟩
      poolNew := rfl
      poolFlag := rfl
      poolSome := rfl
      poolDep := ⟨dep0, rfl, rfl, rfl⟩
      poolSvc := ⟨psvc0, rfl⟩ }
  intro q hq
  have hq' : q ∈ [("postgres", Secret.mk "postgres-secret" "postgres" "pw-super"),
      ("standby", Secret.mk "standby-secret" "standby" "pw-repl"),
      ("alice", Secret.mk "alice-secret" "alice" "pw-alice")] := hq
  simp only [List.mem_cons, List.not_mem_nil, or_false] at hq'
  rcases hq' with rfl | rfl | rfl
  · exact ⟨rfl, rfl, Secret.mk "postgres-secret" "postgres" "pw-super",
      by decide, rfl, by decide, by decide⟩
  · exact ⟨rfl, rfl, Secret.mk "standby-secret" "standby" "pw-repl",
      by decide, rfl, by decide, by decide⟩
  · exact ⟨rfl, rfl, Secret.mk "alice-secret" "alice" "pw-alice",
      by decide, rfl, by decide, by decide⟩

/-- C4 witness: the amended idempotence at the concrete steady fixture. -/
theorem c4_amended_witness :
    (Sync envA cluster0.spec cluster0 store0).1 = none ∧
    (Sync envA cluster0.spec cluster0 store0).2.2.2.filter Event.isMutating =
      (generateUserSecrets envA cluster0).map (fun p => Event.createSecret p.2.name) :=
  c4_amended envA cluster0 store0 steady_envA

/-- C4 counterexample: a steady state in which every resource exists and
matches; the first `Sync` call leaves cluster state and the secret store
untouched, yet the second call still issues a secret create call — refuting
that the second call issues zero update, create, or delete calls. -/
theorem c4_counterexample :
    SteadyHyp envA cluster0 store0 ∧
    (Sync envA cluster0.spec cluster0 store0).2.1 = cluster0 ∧
    (Sync envA cluster0.spec cluster0 store0).2.2.1 = store0 ∧
    Event.createSecret "postgres-secret" ∈
      (Sync envA cluster0.spec (Sync envA cluster0.spec cluster0 store0).2.1
        (Sync envA cluster0.spec cluster0 store0).2.2.1).2.2.2 :=
  ⟨steady_envA, by decide, by decide, by decide⟩

end ZOp
